import Mathlib

/-!
Verification of the color-palette loading routine of `handtex/gui_utils.py`
(`clamp_8bit`, `apply_color_effect`, `section_role_mapping`, `load_color_palette`).

The Python code is shallowly embedded: text is `List Char`, Python `int` is `Int`,
Python `float` values are represented exactly as fractions (`PyFloat`), fallible
parsing returns `Option`, and exceptions surface as `Except String`.
-/

/-- Exact representation of a Python float value as an (unnormalized) fraction.
All values produced by the embedded code keep `0 < den`. Arithmetic on these
fractions is exact rational arithmetic; `PyFloat.val` maps into `ℚ`. -/
structure PyFloat where
  num : Int
  den : Int
deriving DecidableEq, Repr

instance : Add PyFloat := ⟨fun a b => ⟨a.num * b.den + b.num * a.den, a.den * b.den⟩⟩

instance : Sub PyFloat := ⟨fun a b => ⟨a.num * b.den - b.num * a.den, a.den * b.den⟩⟩

instance : Mul PyFloat := ⟨fun a b => ⟨a.num * b.num, a.den * b.den⟩⟩

/-- Embedding of a Python int into a float expression (implicit int-to-float promotion). -/
def PyFloat.ofInt (n : Int) : PyFloat := ⟨n, 1⟩

instance (n : Nat) : OfNat PyFloat n := ⟨⟨(n : Int), 1⟩⟩

/-- The rational value denoted by a `PyFloat`. -/
def PyFloat.val (f : PyFloat) : ℚ := (f.num : ℚ) / (f.den : ℚ)

/-- Truncation of a float toward zero, as Python's `int(...)` conversion does.
For `0 < den` the t-division `num.tdiv den` is exactly truncation toward zero. -/
def pyTrunc (f : PyFloat) : Int := f.num.tdiv f.den

/-- Python `str.strip` whitespace set (ASCII). -/
def isPySpace (c : Char) : Bool :=
  c = ' ' || c = '\t' || c = '\n' || c = '\r' || c = '\x0b' || c = '\x0c'

/-- Python `str.strip()`: drop leading and trailing whitespace. -/
def pyStrip (l : List Char) : List Char :=
  ((l.dropWhile isPySpace).reverse.dropWhile isPySpace).reverse

/-- Python `str.split(sep)` for a one-character separator: split at every occurrence. -/
def pySplitChar (sep : Char) : List Char → List (List Char)
  | [] => [[]]
  | c :: cs =>
    match pySplitChar sep cs with
    | [] => [[c]]
    | h :: t => if c = sep then [] :: h :: t else (c :: h) :: t

/-- Split at the first character satisfying `p`; `none` when no such character occurs.
Used for Python `str.split(sep, 1)`. -/
def pySplitOncePred (p : Char → Bool) : List Char → Option (List Char × List Char)
  | [] => none
  | c :: cs =>
    if p c then some ([], cs)
    else (pySplitOncePred p cs).map (fun q => (c :: q.1, q.2))

/-- `key, value = map(str.strip, line.split("=", 1))` from the source: split the line
at the first `=` and strip both parts. (The code only calls this when `=` occurs.) -/
def splitKeyValue (l : List Char) : List Char × List Char :=
  match pySplitOncePred (fun c => c = '=') l with
  | some (k, v) => (pyStrip k, pyStrip v)
  | none => (pyStrip l, [])

/-- Parse a run of ASCII digits with Python's underscore rule (an underscore must
sit between two digits). Accumulates the value and the number of digits. -/
def pyDigitsAux : Nat → Nat → List Char → Option (Nat × Nat)
  | acc, cnt, [] => some (acc, cnt)
  | acc, cnt, '_' :: c :: cs =>
    if c.isDigit then pyDigitsAux (acc * 10 + (c.toNat - 48)) (cnt + 1) cs else none
  | acc, cnt, c :: cs =>
    if c.isDigit then pyDigitsAux (acc * 10 + (c.toNat - 48)) (cnt + 1) cs else none

/-- A nonempty digit run (first character must be a digit). -/
def pyDigitRun : List Char → Option (Nat × Nat)
  | [] => none
  | c :: cs => if c.isDigit then pyDigitsAux (c.toNat - 48) 1 cs else none

/-- Optional sign followed by a digit run, as in Python `int(...)` after stripping. -/
def pyIntCore (l : List Char) : Option Int :=
  match l with
  | '+' :: r => (pyDigitRun r).map (fun p => (p.1 : Int))
  | '-' :: r => (pyDigitRun r).map (fun p => -(p.1 : Int))
  | r => (pyDigitRun r).map (fun p => (p.1 : Int))

/-- Python `int(str)`: strip surrounding whitespace, optional sign, digit run. -/
def pyInt (l : List Char) : Option Int := pyIntCore (pyStrip l)

/-- `r, g, b = map(int, value.split(","))`: exactly three comma-separated fields,
each a Python int; anything else raises (here: `none`). -/
def parse_rgb (v : List Char) : Option (Int × Int × Int) :=
  match pySplitChar ',' v with
  | [a, b, c] =>
    match pyInt a, pyInt b, pyInt c with
    | some r, some g, some b2 => some (r, g, b2)
    | _, _, _ => none
  | _ => none

/-- Unsigned float mantissa: `digits`, `digits.`, `.digits` or `digits.digits`.
Returns the integer numerator and the count of fractional digits. -/
def pyMantissa (l : List Char) : Option (Int × Nat) :=
  match pySplitOncePred (fun c => c = '.') l with
  | none => (pyDigitRun l).map (fun p => ((p.1 : Int), 0))
  | some (ip, fp) =>
    match ip, fp with
    | [], [] => none
    | [], _ => (pyDigitRun fp).map (fun p => ((p.1 : Int), p.2))
    | _, [] => (pyDigitRun ip).map (fun p => ((p.1 : Int), 0))
    | _, _ =>
      match pyDigitRun ip, pyDigitRun fp with
      | some p, some q => some ((p.1 : Int) * 10 ^ q.2 + (q.1 : Int), q.2)
      | _, _ => none

/-- Unsigned Python float literal: mantissa with optional `e`/`E` exponent. -/
def pyFloatUnsigned (l : List Char) : Option PyFloat :=
  match pySplitOncePred (fun c => c = 'e' || c = 'E') l with
  | none => (pyMantissa l).map (fun p => PyFloat.mk p.1 ((10 : Int) ^ p.2))
  | some (m, e) =>
    match pyMantissa m, pyIntCore e with
    | some (n, fd), some ex =>
      if 0 ≤ ex then some ⟨n * 10 ^ ex.toNat, (10 : Int) ^ fd⟩
      else some ⟨n, (10 : Int) ^ fd * 10 ^ (-ex).toNat⟩
    | _, _ => none

/-- Python `float(str)` on finite decimal literals: strip, optional sign, unsigned literal. -/
def pyFloat (l0 : List Char) : Option PyFloat :=
  match pyStrip l0 with
  | '+' :: r => pyFloatUnsigned r
  | '-' :: r => (pyFloatUnsigned r).map (fun f => PyFloat.mk (-f.num) f.den)
  | r => pyFloatUnsigned r

/-- An RGB color. Modelled from the spec: color values are raw integer triples;
out-of-range components are not validated on assignment (spec section 6). -/
@[ext]
structure Color where
  red : Int
  green : Int
  blue : Int
deriving DecidableEq, Repr

/-- `clamp_8bit` from the source: clamp a value to the 0-255 range. -/
def clamp_8bit (value : Int) : Int :=
  max 0 (min value 255)

/-- `apply_color_effect` from the source: per channel,
`clamp_8bit(int(source * (1 - contrast_amount) + effect_base * contrast_amount))`. -/
def apply_color_effect (source : Color) (effect_base : Color) (contrast_amount : PyFloat) : Color :=
  ⟨clamp_8bit (pyTrunc (PyFloat.ofInt source.red * (1 - contrast_amount)
      + PyFloat.ofInt effect_base.red * contrast_amount)),
   clamp_8bit (pyTrunc (PyFloat.ofInt source.green * (1 - contrast_amount)
      + PyFloat.ofInt effect_base.green * contrast_amount)),
   clamp_8bit (pyTrunc (PyFloat.ofInt source.blue * (1 - contrast_amount)
      + PyFloat.ofInt effect_base.blue * contrast_amount))⟩

/-- The abstract palette roles appearing as values of `section_role_mapping`, plus the
five derived roles of the fallback pass. -/
inductive ColorRole where
  | Button
  | ButtonText
  | BrightText
  | Base
  | AlternateBase
  | Text
  | Link
  | LinkVisited
  | PlaceholderText
  | Highlight
  | HighlightedText
  | ToolTipBase
  | ToolTipText
  | Window
  | WindowText
  | Light
  | Dark
  | Midlight
  | Mid
  | Shadow
deriving DecidableEq, Repr

/-- Palette color groups (states). -/
inductive ColorGroup where
  | Normal
  | Inactive
  | Disabled
deriving DecidableEq, Repr

/-- Modelled from the spec: the toolkit `QPalette` object is a mutable mapping from
(role, state) to an RGB triple, created fresh per load with no role set
(spec sections 3 and 4.1); roles never assigned stay absent (`none`). -/
def Palette : Type := ColorGroup → ColorRole → Option Color

/-- A fresh palette with no color roles set. -/
def emptyPalette : Palette := fun _ _ => none

/-- `palette.setColor(group, role, color)`. -/
def Palette.setColor (p : Palette) (g : ColorGroup) (r : ColorRole) (c : Color) : Palette :=
  fun g' r' => if g' = g ∧ r' = r then some c else p g' r'

/-- `palette.setColor(role, color)`: the toolkit sets the role in every color group. -/
def Palette.setColorAllGroups (p : Palette) (r : ColorRole) (c : Color) : Palette :=
  fun g' r' => if r' = r then some c else p g' r'

/-- `palette.color(role)`: lookup in the default (Normal) group.
`isSome` models `QColor.isValid()` of the looked-up color. -/
def Palette.color (p : Palette) (r : ColorRole) : Option Color :=
  p ColorGroup.Normal r

/-- Modelled from the spec: when an unset role is read back during the fallback pass the
toolkit resolves it to a default color (an external collaborator, spec section 6);
`dflt` stands for that resolution. -/
def getColorOr (dflt : ColorRole → Color) (p : Palette) (r : ColorRole) : Color :=
  (p.color r).getD (dflt r)

/-- Mapping between KDE color keys and palette roles (`section_role_mapping` in the
source, a nested dict embedded as nested association lists). -/
def section_role_mapping : List (List Char × List (List Char × ColorRole)) :=
  [(("Colors:Button").toList,
    [(("BackgroundNormal").toList, ColorRole.Button),
     (("ForegroundNormal").toList, ColorRole.ButtonText),
     (("ForegroundActive").toList, ColorRole.BrightText)]),
   (("Colors:View").toList,
    [(("BackgroundNormal").toList, ColorRole.Base),
     (("BackgroundAlternate").toList, ColorRole.AlternateBase),
     (("ForegroundNormal").toList, ColorRole.Text),
     (("ForegroundLink").toList, ColorRole.Link),
     (("ForegroundVisited").toList, ColorRole.LinkVisited),
     (("ForegroundInactive").toList, ColorRole.PlaceholderText)]),
   (("Colors:Selection").toList,
    [(("BackgroundNormal").toList, ColorRole.Highlight),
     (("ForegroundNormal").toList, ColorRole.HighlightedText)]),
   (("Colors:Tooltip").toList,
    [(("BackgroundNormal").toList, ColorRole.ToolTipBase),
     (("ForegroundNormal").toList, ColorRole.ToolTipText)]),
   (("Colors:Window").toList,
    [(("BackgroundNormal").toList, ColorRole.Window),
     (("ForegroundNormal").toList, ColorRole.WindowText)])]

/-- `section_role_mapping.get(section, {}).get(key, None)` with `section` possibly unset. -/
def roleFor (sec : Option (List Char)) (key : List Char) : Option ColorRole :=
  match sec with
  | none => none
  | some s =>
    match section_role_mapping.lookup s with
    | none => none
    | some m => m.lookup key

/-- The disabled-effect parameters of the first pass: `disabled_color` and
`disabled_contrast_amount`. -/
structure DisabledEffect where
  color : Color
  amount : PyFloat
deriving DecidableEq, Repr

/-- Defaults before the first pass: gray `128,128,128` and contrast amount `0.0`. -/
def defaultDisabledEffect : DisabledEffect := ⟨⟨128, 128, 128⟩, ⟨0, 1⟩⟩

/-- The header line entering the disabled-effect section. -/
def disabledHeader : List Char := ("[ColorEffects:Disabled]").toList

/-- First pass of `load_color_palette`: find the disabled color parameters.
Faithful to the source: the loop `break`s (returns) on the first other `[`-line
met inside the section, and parse failures raise (here `Except.error`). -/
def find_disabled_effect : List (List Char) → Bool → DisabledEffect → Except String DisabledEffect
  | [], _, st => Except.ok st
  | l :: ls, inSec, st =>
    let line := pyStrip l
    if line = disabledHeader then find_disabled_effect ls true st
    else if !inSec then find_disabled_effect ls inSec st
    else if line.head? = some '[' then Except.ok st
    else if !(line.contains '=') then find_disabled_effect ls inSec st
    else
      let kv := splitKeyValue line
      if kv.1 = ("Color").toList then
        match parse_rgb kv.2 with
        | some rgb => find_disabled_effect ls inSec ⟨⟨rgb.1, rgb.2.1, rgb.2.2⟩, st.amount⟩
        | none => Except.error ("invalid literal for int in disabled Color")
      else if kv.1 = ("ContrastAmount").toList then
        match pyFloat kv.2 with
        | some a => find_disabled_effect ls inSec ⟨st.color, a⟩
        | none => Except.error ("could not convert string to float in ContrastAmount")
      else find_disabled_effect ls inSec st

/-- State of the second (role-color) pass: the tracked `section`, the `disabled_color`
variable (which the loop reassigns to each computed disabled color), and the palette. -/
structure RoleScanState where
  currentSection : Option (List Char)
  disabled_color : Color
  palette : Palette

/-- Second pass of `load_color_palette`: track `[section]` headers and assign
Normal/Inactive/Disabled colors for recognized `(section, key)` lines. Faithful to
the source, `disabled_color` is overwritten with each computed disabled color. -/
def apply_role_colors (amount : PyFloat) : List (List Char) → RoleScanState → Except String RoleScanState
  | [], st => Except.ok st
  | l :: ls, st =>
    let line := pyStrip l
    if line.head? = some '[' ∧ line.getLast? = some ']' then
      apply_role_colors amount ls ⟨some ((line.drop 1).dropLast), st.disabled_color, st.palette⟩
    else if line.contains '=' then
      let kv := splitKeyValue line
      match roleFor st.currentSection kv.1 with
      | none => apply_role_colors amount ls st
      | some role =>
        match parse_rgb kv.2 with
        | none => Except.error ("invalid literal for int in role color")
        | some rgb =>
          let c : Color := ⟨rgb.1, rgb.2.1, rgb.2.2⟩
          let d := apply_color_effect c st.disabled_color amount
          apply_role_colors amount ls
            ⟨st.currentSection, d,
             ((st.palette.setColor ColorGroup.Normal role c).setColor
                ColorGroup.Inactive role c).setColor ColorGroup.Disabled role d⟩
    else apply_role_colors amount ls st

/-- Fallback: `Light` from `Button.lighter(150)` when `Light` is unset.
The toolkit `lighter` routine is an external collaborator, passed in as `lighter150`. -/
def fallback_light (lighter150 : Color → Color) (dflt : ColorRole → Color) (p : Palette) : Palette :=
  if (p.color ColorRole.Light).isSome then p
  else p.setColorAllGroups ColorRole.Light (lighter150 (getColorOr dflt p ColorRole.Button))

/-- Fallback: `Dark` from `Window.darker(150)` when `Dark` is unset. -/
def fallback_dark (darker150 : Color → Color) (dflt : ColorRole → Color) (p : Palette) : Palette :=
  if (p.color ColorRole.Dark).isSome then p
  else p.setColorAllGroups ColorRole.Dark (darker150 (getColorOr dflt p ColorRole.Window))

/-- Fallback: `Midlight` as the component-wise integer average of `Light` and `Button`. -/
def fallback_midlight (dflt : ColorRole → Color) (p : Palette) : Palette :=
  if (p.color ColorRole.Midlight).isSome then p
  else
    let light := getColorOr dflt p ColorRole.Light
    let button := getColorOr dflt p ColorRole.Button
    p.setColorAllGroups ColorRole.Midlight
      ⟨(light.red + button.red) / 2, (light.green + button.green) / 2,
       (light.blue + button.blue) / 2⟩

/-- Fallback: `Mid` as the component-wise integer average of `Dark` and `Button`. -/
def fallback_mid (dflt : ColorRole → Color) (p : Palette) : Palette :=
  if (p.color ColorRole.Mid).isSome then p
  else
    let dark := getColorOr dflt p ColorRole.Dark
    let button := getColorOr dflt p ColorRole.Button
    p.setColorAllGroups ColorRole.Mid
      ⟨(dark.red + button.red) / 2, (dark.green + button.green) / 2,
       (dark.blue + button.blue) / 2⟩

/-- Fallback: `Shadow` fixed to black when unset. -/
def fallback_shadow (p : Palette) : Palette :=
  if (p.color ColorRole.Shadow).isSome then p
  else p.setColorAllGroups ColorRole.Shadow ⟨0, 0, 0⟩

/-- The fallback calculations of `load_color_palette`, in source order. -/
def fallback_calculations (lighter150 darker150 : Color → Color) (dflt : ColorRole → Color)
    (p : Palette) : Palette :=
  fallback_shadow (fallback_mid dflt (fallback_midlight dflt
    (fallback_dark darker150 dflt (fallback_light lighter150 dflt p))))

/-- `load_color_palette(theme)` from the source. The resource read is external I/O:
`contentOpt = none` models a file that cannot be opened (then the code raises
`ValueError`), `some content` the text read from it. `lighter150`, `darker150` and
`dflt` are the external toolkit color collaborators. -/
def load_color_palette (theme : String) (contentOpt : Option (List Char))
    (lighter150 darker150 : Color → Color) (dflt : ColorRole → Color) :
    Except String Palette :=
  match contentOpt with
  | none => Except.error ("Could not open theme file: " ++ theme)
  | some content =>
    let lines := pySplitChar '\n' content
    match find_disabled_effect lines false defaultDisabledEffect with
    | Except.error e => Except.error e
    | Except.ok eff =>
      match apply_role_colors eff.amount lines ⟨none, eff.color, emptyPalette⟩ with
      | Except.error e => Except.error e
      | Except.ok st =>
        Except.ok (fallback_calculations lighter150 darker150 dflt st.palette)

/-- Observation helper: the color stored at (group, role) of a load result;
`none` when the load failed. -/
def loadColorAt (e : Except String Palette) (g : ColorGroup) (r : ColorRole) :
    Option (Option Color) :=
  match e with
  | Except.error _ => none
  | Except.ok p => some (p g r)

/-- Integer truncation toward zero of a rational, the reference semantics of
Python's `int(float)` named by the spec. -/
def ratTruncTowardZero (r : ℚ) : Int :=
  if r < 0 then ⌈r⌉ else ⌊r⌋

/-- The spec's `clamp8(x) = max(0, min(x, 255))`. -/
def clamp8Spec (x : Int) : Int := max 0 (min x 255)

/-- The spec's per-channel blend formula over exact rationals:
`clamp8(truncTowardZero(source_channel * (1 - amount) + effectBase_channel * amount))`. -/
def blendChannelSpec (sc ec : Int) (amount : ℚ) : Int :=
  clamp8Spec (ratTruncTowardZero ((sc : ℚ) * (1 - amount) + (ec : ℚ) * amount))

/-- A color whose three channels lie in the 8-bit range. -/
def channelsInRange (c : Color) : Prop :=
  0 ≤ c.red ∧ c.red ≤ 255 ∧ 0 ≤ c.green ∧ c.green ≤ 255 ∧ 0 ≤ c.blue ∧ c.blue ≤ 255

instance (c : Color) : Decidable (channelsInRange c) := by
  unfold channelsInRange
  infer_instance

theorem PyFloat.num_add (a b : PyFloat) : (a + b).num = a.num * b.den + b.num * a.den := rfl

theorem PyFloat.den_add (a b : PyFloat) : (a + b).den = a.den * b.den := rfl

theorem PyFloat.num_sub (a b : PyFloat) : (a - b).num = a.num * b.den - b.num * a.den := rfl

theorem PyFloat.den_sub (a b : PyFloat) : (a - b).den = a.den * b.den := rfl

theorem PyFloat.num_mul (a b : PyFloat) : (a * b).num = a.num * b.num := rfl

theorem PyFloat.den_mul (a b : PyFloat) : (a * b).den = a.den * b.den := rfl

theorem PyFloat.one_eq : (1 : PyFloat) = ⟨1, 1⟩ := rfl

theorem PyFloat.val_ofInt (n : Int) : (PyFloat.ofInt n).val = (n : ℚ) := by
  simp [PyFloat.val, PyFloat.ofInt]

theorem PyFloat.val_one : (1 : PyFloat).val = 1 := by
  simp [PyFloat.one_eq, PyFloat.val]

theorem PyFloat.val_mul (a b : PyFloat) : (a * b).val = a.val * b.val := by
  simp only [PyFloat.val, PyFloat.num_mul, PyFloat.den_mul]
  push_cast
  rw [div_mul_div_comm]

theorem PyFloat.val_sub (a b : PyFloat) (ha : a.den ≠ 0) (hb : b.den ≠ 0) :
    (a - b).val = a.val - b.val := by
  simp only [PyFloat.val, PyFloat.num_sub, PyFloat.den_sub]
  push_cast
  rw [div_sub_div _ _ (by exact_mod_cast ha) (by exact_mod_cast hb)]
  ring_nf

theorem PyFloat.val_add (a b : PyFloat) (ha : a.den ≠ 0) (hb : b.den ≠ 0) :
    (a + b).val = a.val + b.val := by
  simp only [PyFloat.val, PyFloat.num_add, PyFloat.den_add]
  push_cast
  rw [div_add_div _ _ (by exact_mod_cast ha) (by exact_mod_cast hb)]
  ring_nf

theorem pyTrunc_eq_truncVal (f : PyFloat) (hd : 0 < f.den) :
    pyTrunc f = ratTruncTowardZero f.val := by
  obtain ⟨n, d⟩ := f
  simp only [pyTrunc, PyFloat.val] at *
  have hdn : d = ((d.toNat : ℕ) : ℤ) := (Int.toNat_of_nonneg hd.le).symm
  rcases le_or_lt 0 n with h | h
  · have hr : ¬ ((n : ℚ) / (d : ℚ) < 0) := by
      refine not_lt.2 (div_nonneg ?_ ?_)
      · exact_mod_cast h
      · exact_mod_cast hd.le
    rw [ratTruncTowardZero, if_neg hr, hdn]
    push_cast
    rw [Rat.floor_intCast_div_natCast]
    exact Int.tdiv_eq_ediv h (by exact_mod_cast (Int.toNat_of_nonneg hd.le) ▸ hd.le)
  · have hr : (n : ℚ) / (d : ℚ) < 0 := by
      refine div_neg_of_neg_of_pos ?_ ?_
      · exact_mod_cast h
      · exact_mod_cast hd
    rw [ratTruncTowardZero, if_pos hr]
    have hceil : (⌈(n : ℚ) / (d : ℚ)⌉ : ℤ) = -⌊-((n : ℚ) / (d : ℚ))⌋ := by
      rw [Int.floor_neg]
      omega
    rw [hceil]
    have hdq : ((d.toNat : ℕ) : ℚ) = (d : ℚ) := by
      exact_mod_cast Int.toNat_of_nonneg hd.le
    have hnd : -((n : ℚ) / (d : ℚ)) = ((-n : ℤ) : ℚ) / ((d.toNat : ℕ) : ℚ) := by
      rw [hdq]
      push_cast
      rw [neg_div]
    rw [hnd, Rat.floor_intCast_div_natCast]
    have htd : (-n).tdiv d = (-n) / ((d.toNat : ℕ) : ℤ) := by
      rw [← hdn]
      exact Int.tdiv_eq_ediv (by omega) hd.le
    rw [← htd, ← Int.neg_tdiv, neg_neg]

theorem blend_expr_den (sc ec : Int) (a : PyFloat) :
    (PyFloat.ofInt sc * (1 - a) + PyFloat.ofInt ec * a).den = a.den * a.den := by
  simp [PyFloat.den_add, PyFloat.den_mul, PyFloat.den_sub, PyFloat.one_eq, PyFloat.ofInt]

theorem blend_expr_val (sc ec : Int) (a : PyFloat) (hd : a.den ≠ 0) :
    (PyFloat.ofInt sc * (1 - a) + PyFloat.ofInt ec * a).val
      = (sc : ℚ) * (1 - a.val) + (ec : ℚ) * a.val := by
  have h1 : (PyFloat.ofInt sc * (1 - a)).den ≠ 0 := by
    simp [PyFloat.den_mul, PyFloat.den_sub, PyFloat.one_eq, PyFloat.ofInt, hd]
  have h2 : (PyFloat.ofInt ec * a).den ≠ 0 := by
    simp [PyFloat.den_mul, PyFloat.ofInt, hd]
  rw [PyFloat.val_add _ _ h1 h2, PyFloat.val_mul, PyFloat.val_mul,
    PyFloat.val_sub _ _ (by simp [PyFloat.one_eq]) hd, PyFloat.val_ofInt, PyFloat.val_ofInt,
    PyFloat.val_one]

theorem pyTrunc_blend (sc ec : Int) (a : PyFloat) (hd : 0 < a.den) :
    pyTrunc (PyFloat.ofInt sc * (1 - a) + PyFloat.ofInt ec * a)
      = ratTruncTowardZero ((sc : ℚ) * (1 - a.val) + (ec : ℚ) * a.val) := by
  rw [pyTrunc_eq_truncVal _ (by rw [blend_expr_den]; positivity),
    blend_expr_val _ _ _ (ne_of_gt hd)]

theorem ratTruncTowardZero_intCast (n : Int) : ratTruncTowardZero ((n : ℤ) : ℚ) = n := by
  unfold ratTruncTowardZero
  split <;> simp

theorem clamp_8bit_of_range (x : Int) (h0 : 0 ≤ x) (h255 : x ≤ 255) : clamp_8bit x = x := by
  unfold clamp_8bit
  omega

theorem blend_channel_zero (sc ec : Int) (a : PyFloat) (hd : 0 < a.den) (hv : a.val = 0)
    (h0 : 0 ≤ sc) (h255 : sc ≤ 255) :
    clamp_8bit (pyTrunc (PyFloat.ofInt sc * (1 - a) + PyFloat.ofInt ec * a)) = sc := by
  rw [pyTrunc_blend _ _ _ hd, hv]
  have h : ((sc : ℚ) * (1 - 0) + (ec : ℚ) * 0) = ((sc : ℤ) : ℚ) := by ring
  rw [h, ratTruncTowardZero_intCast]
  exact clamp_8bit_of_range _ h0 h255

theorem blend_channel_one (sc ec : Int) (a : PyFloat) (hd : 0 < a.den) (hv : a.val = 1)
    (h0 : 0 ≤ ec) (h255 : ec ≤ 255) :
    clamp_8bit (pyTrunc (PyFloat.ofInt sc * (1 - a) + PyFloat.ofInt ec * a)) = ec := by
  rw [pyTrunc_blend _ _ _ hd, hv]
  have h : ((sc : ℚ) * (1 - 1) + (ec : ℚ) * 1) = ((ec : ℤ) : ℚ) := by ring
  rw [h, ratTruncTowardZero_intCast]
  exact clamp_8bit_of_range _ h0 h255

theorem blend_channel_self (sc : Int) (a : PyFloat) (hd : 0 < a.den)
    (h0 : 0 ≤ sc) (h255 : sc ≤ 255) :
    clamp_8bit (pyTrunc (PyFloat.ofInt sc * (1 - a) + PyFloat.ofInt sc * a)) = sc := by
  rw [pyTrunc_blend _ _ _ hd]
  have h : ((sc : ℚ) * (1 - a.val) + (sc : ℚ) * a.val) = ((sc : ℤ) : ℚ) := by ring
  rw [h, ratTruncTowardZero_intCast]
  exact clamp_8bit_of_range _ h0 h255

/-- C2: for every source color and effect base color with channels in 0-255 and every
amount, `apply_color_effect` computes each of the three channels independently as
clamp8 of the integer truncation toward zero of
`source_channel * (1 - amount) + effectBase_channel * amount`,
with `clamp8(x) = max(0, min(x, 255))`. -/
theorem c2_blend_channelwise (s e : Color) (a : PyFloat) (hd : 0 < a.den)
    (hs : channelsInRange s) (he : channelsInRange e) :
    apply_color_effect s e a =
      ⟨blendChannelSpec s.red e.red a.val, blendChannelSpec s.green e.green a.val,
       blendChannelSpec s.blue e.blue a.val⟩ := by
  unfold apply_color_effect blendChannelSpec clamp8Spec clamp_8bit
  rw [pyTrunc_blend _ _ _ hd, pyTrunc_blend _ _ _ hd, pyTrunc_blend _ _ _ hd]

/-- Witness for C2 at a concrete input. -/
theorem c2_blend_channelwise_witness :
    apply_color_effect ⟨10, 20, 30⟩ ⟨200, 100, 0⟩ ⟨5, 10⟩ =
      ⟨blendChannelSpec 10 200 (PyFloat.val ⟨5, 10⟩),
       blendChannelSpec 20 100 (PyFloat.val ⟨5, 10⟩),
       blendChannelSpec 30 0 (PyFloat.val ⟨5, 10⟩)⟩ :=
  c2_blend_channelwise ⟨10, 20, 30⟩ ⟨200, 100, 0⟩ ⟨5, 10⟩ (by decide) (by decide) (by decide)

/-- C8: for colors with channels in 0-255, blending with amount 0.0 returns the source
and blending with amount 1.0 returns the effect base color. -/
theorem c8_blend_boundaries (s e : Color) (a : PyFloat) (hd : 0 < a.den)
    (hs : channelsInRange s) (he : channelsInRange e) :
    (a.val = 0 → apply_color_effect s e a = s) ∧
    (a.val = 1 → apply_color_effect s e a = e) := by
  obtain ⟨s1, s2, s3, s4, s5, s6⟩ := hs
  obtain ⟨e1, e2, e3, e4, e5, e6⟩ := he
  constructor
  · intro hv
    refine Color.ext ?_ ?_ ?_
    · exact blend_channel_zero s.red e.red a hd hv s1 s2
    · exact blend_channel_zero s.green e.green a hd hv s3 s4
    · exact blend_channel_zero s.blue e.blue a hd hv s5 s6
  · intro hv
    refine Color.ext ?_ ?_ ?_
    · exact blend_channel_one s.red e.red a hd hv e1 e2
    · exact blend_channel_one s.green e.green a hd hv e3 e4
    · exact blend_channel_one s.blue e.blue a hd hv e5 e6

/-- Witness for C8 at concrete inputs (amounts 0.0 and 1.0). -/
theorem c8_blend_boundaries_witness :
    apply_color_effect ⟨10, 20, 30⟩ ⟨200, 100, 0⟩ ⟨0, 1⟩ = ⟨10, 20, 30⟩ ∧
    apply_color_effect ⟨10, 20, 30⟩ ⟨200, 100, 0⟩ ⟨1, 1⟩ = ⟨200, 100, 0⟩ :=
  ⟨(c8_blend_boundaries ⟨10, 20, 30⟩ ⟨200, 100, 0⟩ ⟨0, 1⟩ (by decide) (by decide)
      (by decide)).1 (by simp [PyFloat.val]),
   (c8_blend_boundaries ⟨10, 20, 30⟩ ⟨200, 100, 0⟩ ⟨1, 1⟩ (by decide) (by decide)
      (by decide)).2 (by simp [PyFloat.val])⟩

/-- C9: for every color with channels in 0-255 and every amount in [0,1], blending a
color with itself is a no-op. -/
theorem c9_blend_self (c : Color) (a : PyFloat) (hc : channelsInRange c) (hd : 0 < a.den)
    (h0 : 0 ≤ a.val) (h1 : a.val ≤ 1) :
    apply_color_effect c c a = c := by
  obtain ⟨c1, c2, c3, c4, c5, c6⟩ := hc
  refine Color.ext ?_ ?_ ?_
  · exact blend_channel_self c.red a hd c1 c2
  · exact blend_channel_self c.green a hd c3 c4
  · exact blend_channel_self c.blue a hd c5 c6

/-- Witness for C9 at a concrete input. -/
theorem c9_blend_self_witness :
    apply_color_effect ⟨7, 8, 9⟩ ⟨7, 8, 9⟩ ⟨0, 1⟩ = ⟨7, 8, 9⟩ :=
  c9_blend_self ⟨7, 8, 9⟩ ⟨0, 1⟩ (by decide) (by decide) (by simp [PyFloat.val])
    (by simp [PyFloat.val])

/-- C6: when the theme resource cannot be opened for reading, `load_color_palette` fails
the whole load with an error surfaced to the caller and returns no palette; in
particular the fallback pass never runs and no partially-populated palette escapes. -/
theorem c6_unreadable_resource (theme : String) (lighter150 darker150 : Color → Color)
    (dflt : ColorRole → Color) :
    load_color_palette theme none lighter150 darker150 dflt
      = Except.error ("Could not open theme file: " ++ theme) := rfl

theorem pySplitOncePred_append (p : Char → Bool) (k v : List Char) (sep : Char)
    (hsep : p sep = true) (hk : ∀ c ∈ k, p c = false) :
    pySplitOncePred p (k ++ sep :: v) = some (k, v) := by
  induction k with
  | nil => simp [pySplitOncePred, hsep]
  | cons c cs ih =>
    have hc : p c = false := hk c (by simp)
    simp [pySplitOncePred, hc, ih (fun d hd => hk d (by simp [hd]))]

/-- C10: in both passes every key=value line is split at the first `=` only, with both
key and value stripped of surrounding whitespace: the general splitting law, plus the
fact that each pass treats `Color = 1,2,3`-style lines exactly like `Color=1,2,3`. -/
theorem c10_split_first_eq :
    (∀ k v : List Char, '=' ∉ k →
      splitKeyValue (k ++ '=' :: v) = (pyStrip k, pyStrip v)) ∧
    (∀ ls inSec st, find_disabled_effect ((("Color = 1,2,3").toList) :: ls) inSec st
        = find_disabled_effect ((("Color=1,2,3").toList) :: ls) inSec st) ∧
    (∀ ls dc pal amount,
      apply_role_colors amount ((("BackgroundNormal = 1,2,3").toList) :: ls)
          ⟨some (("Colors:Button").toList), dc, pal⟩
        = apply_role_colors amount ((("BackgroundNormal=1,2,3").toList) :: ls)
          ⟨some (("Colors:Button").toList), dc, pal⟩) := by
  refine ⟨?_, ?_, ?_⟩
  · intro k v hk
    unfold splitKeyValue
    rw [pySplitOncePred_append (fun c => c = '=') k v '=' (by decide)
      (fun c hc => by
        simp only [decide_eq_false_iff_not]
        exact fun h => hk (h ▸ hc))]
  · intro ls inSec st
    cases inSec <;> rfl
  · intro ls dc pal amount
    rfl

/-- Witness for C10 at a concrete line with spaces around `=` and in the value. -/
theorem c10_split_first_eq_witness :
    splitKeyValue ((("Color ").toList) ++ '=' :: ((" 1,2,3").toList))
      = (pyStrip (("Color ").toList), pyStrip ((" 1,2,3").toList)) :=
  c10_split_first_eq.1 (("Color ").toList) ((" 1,2,3").toList) (by decide)

/-- States of the (amended) disabled-effect scan: before the section, inside it, and
stopped for good after leaving it. -/
inductive DisabledScanState where
  | outside
  | inSection
  | stopped
deriving DecidableEq, Repr

/-- The amended state machine for the disabled-effect pass: `outside → inSection` on the
exact header; while `inSection`, any other line starting with `[` moves to `stopped`,
which absorbs every remaining line (the code's `break`); key=value lines outside the
section never touch the effect spec. -/
def runDisabledScan : List (List Char) → DisabledScanState → DisabledEffect →
    Except String DisabledEffect
  | [], _, st => Except.ok st
  | l :: ls, q, st =>
    match q with
    | DisabledScanState.stopped => runDisabledScan ls DisabledScanState.stopped st
    | DisabledScanState.outside =>
      if pyStrip l = disabledHeader then runDisabledScan ls DisabledScanState.inSection st
      else runDisabledScan ls DisabledScanState.outside st
    | DisabledScanState.inSection =>
      let line := pyStrip l
      if line = disabledHeader then runDisabledScan ls DisabledScanState.inSection st
      else if line.head? = some '[' then runDisabledScan ls DisabledScanState.stopped st
      else if !(line.contains '=') then runDisabledScan ls DisabledScanState.inSection st
      else
        let kv := splitKeyValue line
        if kv.1 = ("Color").toList then
          match parse_rgb kv.2 with
          | some rgb =>
            runDisabledScan ls DisabledScanState.inSection ⟨⟨rgb.1, rgb.2.1, rgb.2.2⟩, st.amount⟩
          | none => Except.error ("invalid literal for int in disabled Color")
        else if kv.1 = ("ContrastAmount").toList then
          match pyFloat kv.2 with
          | some a => runDisabledScan ls DisabledScanState.inSection ⟨st.color, a⟩
          | none => Except.error ("could not convert string to float in ContrastAmount")
        else runDisabledScan ls DisabledScanState.inSection st

/-- The disabled-effect pass exactly as claim C3 words it (no terminal state: another
header puts the scan back to Outside and a later exact header re-enters the section).
Modelled from the spec claim, for comparison against the code. -/
def runDisabledScanClaimed : List (List Char) → Bool → DisabledEffect →
    Except String DisabledEffect
  | [], _, st => Except.ok st
  | l :: ls, inSec, st =>
    let line := pyStrip l
    if line = disabledHeader then runDisabledScanClaimed ls true st
    else if !inSec then runDisabledScanClaimed ls false st
    else if line.head? = some '[' then runDisabledScanClaimed ls false st
    else if !(line.contains '=') then runDisabledScanClaimed ls true st
    else
      let kv := splitKeyValue line
      if kv.1 = ("Color").toList then
        match parse_rgb kv.2 with
        | some rgb => runDisabledScanClaimed ls true ⟨⟨rgb.1, rgb.2.1, rgb.2.2⟩, st.amount⟩
        | none => Except.error ("invalid literal for int in disabled Color")
      else if kv.1 = ("ContrastAmount").toList then
        match pyFloat kv.2 with
        | some a => runDisabledScanClaimed ls true ⟨st.color, a⟩
        | none => Except.error ("could not convert string to float in ContrastAmount")
      else runDisabledScanClaimed ls true st

theorem runDisabledScan_stopped (ls : List (List Char)) (st : DisabledEffect) :
    runDisabledScan ls DisabledScanState.stopped st = Except.ok st := by
  induction ls with
  | nil => rfl
  | cons l t ih => simp [runDisabledScan, ih]

theorem find_disabled_effect_eq_scan (ls : List (List Char)) (st : DisabledEffect) :
    (find_disabled_effect ls false st = runDisabledScan ls DisabledScanState.outside st) ∧
    (find_disabled_effect ls true st = runDisabledScan ls DisabledScanState.inSection st) := by
  induction ls generalizing st with
  | nil => exact ⟨rfl, rfl⟩
  | cons l t ih =>
    constructor
    · by_cases h1 : pyStrip l = disabledHeader
      · simp only [find_disabled_effect, runDisabledScan, h1, if_true]
        exact (ih st).2
      · simp only [find_disabled_effect, runDisabledScan, h1, if_false, Bool.not_false,
          if_true]
        exact (ih st).1
    · by_cases h1 : pyStrip l = disabledHeader
      · simp only [find_disabled_effect, runDisabledScan, h1, if_true]
        exact (ih st).2
      · by_cases h2 : (pyStrip l).head? = some '['
        · simp only [find_disabled_effect, runDisabledScan, h1, if_false, Bool.not_true,
            Bool.false_eq_true, h2, if_true, runDisabledScan_stopped]
        · by_cases h3 : (pyStrip l).contains '=' = true
          · simp only [find_disabled_effect, runDisabledScan, h1, if_false, Bool.not_true,
              Bool.false_eq_true, h2, h3]
            by_cases hc : (splitKeyValue (pyStrip l)).1 = ("Color").toList
            · simp only [hc, if_true]
              cases hp : parse_rgb (splitKeyValue (pyStrip l)).2 with
              | none => simp
              | some rgb => simpa using (ih _).2
            · simp only [hc, if_false]
              by_cases hca : (splitKeyValue (pyStrip l)).1 = ("ContrastAmount").toList
              · simp only [hca, if_true]
                cases hp : pyFloat (splitKeyValue (pyStrip l)).2 with
                | none => simp
                | some a => simpa using (ih _).2
              · simp only [hca, if_false]
                exact (ih st).2
          · simp only [find_disabled_effect, runDisabledScan, h1, if_false, Bool.not_true,
              Bool.false_eq_true, h2, h3, Bool.not_false, if_true]
            exact (ih st).2

/-- C3 (amended): the disabled-effect pass follows the three-state machine
`outside / inSection / stopped`: it enters on the exact `[ColorEffects:Disabled]`
header, leaves for the terminal `stopped` state on any other `[`-line met inside the
section (so no later line — a repeated header included — is processed), and lines seen
outside the section never change the effect base color or contrast amount. -/
theorem c3_scan_state_machine (lines : List (List Char)) (st : DisabledEffect) :
    find_disabled_effect lines false st = runDisabledScan lines DisabledScanState.outside st :=
  (find_disabled_effect_eq_scan lines st).1

/-- C3 counterexample: claim C3 says a later occurrence of the header while Outside
re-enters the section, so on this input the claimed machine ends with color 1,2,3;
the code's pass `break`s at the `[X]` boundary and keeps the default gray instead. -/
theorem c3_counterexample :
    find_disabled_effect (pySplitChar '\n'
        (("[ColorEffects:Disabled]\n[X]\n[ColorEffects:Disabled]\nColor=1,2,3").toList))
        false defaultDisabledEffect
      = Except.ok ⟨⟨128, 128, 128⟩, ⟨0, 1⟩⟩ ∧
    runDisabledScanClaimed (pySplitChar '\n'
        (("[ColorEffects:Disabled]\n[X]\n[ColorEffects:Disabled]\nColor=1,2,3").toList))
        false defaultDisabledEffect
      = Except.ok ⟨⟨1, 2, 3⟩, ⟨0, 1⟩⟩ :=
  ⟨rfl, rfl⟩

/-- C1 (evaluation at the failing input): the disabled-effect pass parses base (0,0,0)
and amount 0.5; the first recognized role (Button, 200,200,200) gets Disabled
blend((200,200,200),(0,0,0),0.5) = (100,100,100); the loop then overwrites the
`disabled_color` variable with that result, so the second role (ButtonText,
100,100,100) is stored as blend((100,100,100),(100,100,100),0.5) = (100,100,100)
although the claim demands blend((100,100,100),(0,0,0),0.5) = (50,50,50). -/
theorem c1_effect_base_overwritten :
    find_disabled_effect (pySplitChar '\n'
        (("[ColorEffects:Disabled]\nColor=0,0,0\nContrastAmount=0.5\n[Colors:Button]\nBackgroundNormal=200,200,200\nForegroundNormal=100,100,100").toList))
        false defaultDisabledEffect
      = Except.ok ⟨⟨0, 0, 0⟩, ⟨5, 10⟩⟩ ∧
    loadColorAt (load_color_palette ("t")
        (some (("[ColorEffects:Disabled]\nColor=0,0,0\nContrastAmount=0.5\n[Colors:Button]\nBackgroundNormal=200,200,200\nForegroundNormal=100,100,100").toList))
        id id (fun _ => ⟨0, 0, 0⟩)) ColorGroup.Disabled ColorRole.ButtonText
      = some (some ⟨100, 100, 100⟩) ∧
    apply_color_effect ⟨100, 100, 100⟩ ⟨0, 0, 0⟩ ⟨5, 10⟩ = ⟨50, 50, 50⟩ ∧
    (⟨100, 100, 100⟩ : Color) ≠ ⟨50, 50, 50⟩ := by
  refine ⟨rfl, by decide, by decide, by decide⟩

/-- The `section` variable tracked by the role-color pass across a list of lines. -/
def trackSection : List (List Char) → Option (List Char) → Option (List Char)
  | [], s => s
  | l :: ls, s =>
    let line := pyStrip l
    if line.head? = some '[' ∧ line.getLast? = some ']' then
      trackSection ls (some ((line.drop 1).dropLast))
    else trackSection ls s

theorem apply_role_colors_append (amount : PyFloat) (xs ys : List (List Char))
    (st : RoleScanState) :
    apply_role_colors amount (xs ++ ys) st =
      (match apply_role_colors amount xs st with
       | Except.error e => Except.error e
       | Except.ok st1 => apply_role_colors amount ys st1) := by
  induction xs generalizing st with
  | nil => rfl
  | cons l t ih =>
    by_cases h1 : (pyStrip l).head? = some '[' ∧ (pyStrip l).getLast? = some ']'
    · simp only [List.cons_append, apply_role_colors, h1, if_true]
      exact ih _
    · by_cases h2 : (pyStrip l).contains '=' = true
      · simp only [List.cons_append, apply_role_colors, h1, if_false, h2, if_true]
        cases hr : roleFor st.currentSection (splitKeyValue (pyStrip l)).1 with
        | none => simpa using ih st
        | some role =>
          cases hp : parse_rgb (splitKeyValue (pyStrip l)).2 with
          | none => simp
          | some rgb => simpa using ih _
      · simp only [List.cons_append, apply_role_colors, h1, if_false, h2,
          Bool.false_eq_true, if_false]
        exact ih st

theorem apply_role_colors_section (amount : PyFloat) (xs : List (List Char))
    (st st' : RoleScanState) (h : apply_role_colors amount xs st = Except.ok st') :
    st'.currentSection = trackSection xs st.currentSection := by
  induction xs generalizing st with
  | nil =>
    simp only [apply_role_colors] at h
    cases h
    rfl
  | cons l t ih =>
    by_cases h1 : (pyStrip l).head? = some '[' ∧ (pyStrip l).getLast? = some ']'
    · simp only [apply_role_colors, h1, if_true] at h
      simpa [trackSection, h1] using ih _ h
    · by_cases h2 : (pyStrip l).contains '=' = true
      · simp only [apply_role_colors, h1, if_false, h2, if_true] at h
        cases hr : roleFor st.currentSection (splitKeyValue (pyStrip l)).1 with
        | none =>
          rw [hr] at h
          simpa [trackSection, h1] using ih _ h
        | some role =>
          rw [hr] at h
          cases hp : parse_rgb (splitKeyValue (pyStrip l)).2 with
          | none => rw [hp] at h; cases h
          | some rgb =>
            rw [hp] at h
            simpa [trackSection, h1] using ih _ h
      · simp only [apply_role_colors, h1, if_false, h2, Bool.false_eq_true, if_false] at h
        simpa [trackSection, h1] using ih _ h

theorem apply_role_colors_malformed (amount : PyFloat) (pre post : List (List Char))
    (l : List Char) (st : RoleScanState)
    (h1 : ¬((pyStrip l).head? = some '[' ∧ (pyStrip l).getLast? = some ']'))
    (h2 : (pyStrip l).contains '=' = true)
    (h3 : (roleFor (trackSection pre st.currentSection) (splitKeyValue (pyStrip l)).1).isSome
      = true)
    (h4 : parse_rgb (splitKeyValue (pyStrip l)).2 = none) :
    ∃ e, apply_role_colors amount (pre ++ l :: post) st = Except.error e := by
  rw [apply_role_colors_append]
  cases hpre : apply_role_colors amount pre st with
  | error e => exact ⟨e, rfl⟩
  | ok st1 =>
    have hsec := apply_role_colors_section amount pre st st1 hpre
    obtain ⟨role, hrole⟩ := Option.isSome_iff_exists.1 h3
    refine ⟨("invalid literal for int in role color"), ?_⟩
    simp only [apply_role_colors, h1, if_false, h2, if_true, hsec ▸ hrole, h4]

/-- Whether the disabled-effect pass, run over a list of lines, ends Outside
(`some false`), inside the section (`some true`), or has stopped (`none`). -/
def trackDisabled : List (List Char) → Bool → Option Bool
  | [], b => some b
  | l :: ls, b =>
    let line := pyStrip l
    if line = disabledHeader then trackDisabled ls true
    else if !b then trackDisabled ls b
    else if line.head? = some '[' then none
    else trackDisabled ls b

theorem find_disabled_effect_reach (pre rest : List (List Char)) (b b' : Bool)
    (st : DisabledEffect) (h : trackDisabled pre b = some b') :
    (∃ e, find_disabled_effect (pre ++ rest) b st = Except.error e) ∨
    (∃ st1, find_disabled_effect (pre ++ rest) b st = find_disabled_effect rest b' st1) := by
  induction pre generalizing b st with
  | nil =>
    simp only [trackDisabled, Option.some.injEq] at h
    subst h
    exact Or.inr ⟨st, rfl⟩
  | cons l t ih =>
    by_cases h1 : pyStrip l = disabledHeader
    · simp only [trackDisabled, h1, if_true] at h
      simpa only [List.cons_append, find_disabled_effect, h1, if_true] using ih _ _ h
    · cases b with
      | false =>
        simp only [trackDisabled, h1, if_false, Bool.not_false, if_true] at h
        simpa only [List.cons_append, find_disabled_effect, h1, if_false, Bool.not_false,
          if_true] using ih _ _ h
      | true =>
        by_cases h2 : (pyStrip l).head? = some '['
        · exfalso
          simp only [trackDisabled, h1, if_false, Bool.not_true, Bool.false_eq_true,
            if_false, h2, if_true] at h
          exact Option.noConfusion h
        · simp only [trackDisabled, h1, if_false, Bool.not_true, Bool.false_eq_true,
            if_false, h2] at h
          by_cases h3 : (pyStrip l).contains '=' = true
          · simp only [List.cons_append, find_disabled_effect, h1, if_false, Bool.not_true,
              Bool.false_eq_true, h2, h3]
            by_cases hc : (splitKeyValue (pyStrip l)).1 = ("Color").toList
            · simp only [hc, if_true]
              cases hp : parse_rgb (splitKeyValue (pyStrip l)).2 with
              | none => exact Or.inl ⟨_, rfl⟩
              | some rgb => simpa using ih _ _ h
            · simp only [hc, if_false]
              by_cases hca : (splitKeyValue (pyStrip l)).1 = ("ContrastAmount").toList
              · simp only [hca, if_true]
                cases hp : pyFloat (splitKeyValue (pyStrip l)).2 with
                | none => exact Or.inl ⟨_, rfl⟩
                | some a => simpa using ih _ _ h
              · simp only [hca, if_false]
                exact ih _ _ h
          · simp only [List.cons_append, find_disabled_effect, h1, if_false, Bool.not_true,
              Bool.false_eq_true, h2, h3, Bool.not_false, if_true, if_false]
            exact ih _ _ h

theorem find_disabled_effect_malformed (pre post : List (List Char)) (l : List Char)
    (st : DisabledEffect)
    (htrack : trackDisabled pre false = some true)
    (hh : pyStrip l ≠ disabledHeader)
    (hbr : ¬((pyStrip l).head? = some '['))
    (heq : (pyStrip l).contains '=' = true)
    (hkey : (splitKeyValue (pyStrip l)).1 = ("Color").toList)
    (hbad : parse_rgb (splitKeyValue (pyStrip l)).2 = none) :
    ∃ e, find_disabled_effect (pre ++ l :: post) false st = Except.error e := by
  rcases find_disabled_effect_reach pre (l :: post) false true st htrack with ⟨e, he⟩ | ⟨st1, h1⟩
  · exact ⟨e, he⟩
  · refine ⟨("invalid literal for int in disabled Color"), ?_⟩
    rw [h1]
    simp only [find_disabled_effect, hh, if_false, Bool.not_true, Bool.false_eq_true, hbr,
      heq, hkey, if_true, hbad]

theorem load_color_palette_some (theme : String) (content : List Char)
    (lighter150 darker150 : Color → Color) (dflt : ColorRole → Color) :
    load_color_palette theme (some content) lighter150 darker150 dflt =
      (match find_disabled_effect (pySplitChar '\n' content) false defaultDisabledEffect with
       | Except.error e => Except.error e
       | Except.ok eff =>
         match apply_role_colors eff.amount (pySplitChar '\n' content)
             ⟨none, eff.color, emptyPalette⟩ with
         | Except.error e => Except.error e
         | Except.ok st =>
           Except.ok (fallback_calculations lighter150 darker150 dflt st.palette)) := rfl

/-- C7: a recognized `(section, key)` line of the role pass, or a `Color` line inside the
disabled section, whose value does not parse as exactly three comma-separated integers
makes `load_color_palette` fail by propagating the parse error to the caller (no silent
skip or default). -/
theorem c7_malformed_value (theme : String) (content : List Char)
    (lighter150 darker150 : Color → Color) (dflt : ColorRole → Color)
    (pre post : List (List Char)) (l : List Char)
    (hsplit : pySplitChar '\n' content = pre ++ l :: post)
    (hcase :
      ((¬((pyStrip l).head? = some '[' ∧ (pyStrip l).getLast? = some ']')) ∧
        (pyStrip l).contains '=' = true ∧
        (roleFor (trackSection pre none) (splitKeyValue (pyStrip l)).1).isSome = true ∧
        parse_rgb (splitKeyValue (pyStrip l)).2 = none) ∨
      (trackDisabled pre false = some true ∧
        pyStrip l ≠ disabledHeader ∧
        ¬((pyStrip l).head? = some '[') ∧
        (pyStrip l).contains '=' = true ∧
        (splitKeyValue (pyStrip l)).1 = ("Color").toList ∧
        parse_rgb (splitKeyValue (pyStrip l)).2 = none)) :
    ∃ e, load_color_palette theme (some content) lighter150 darker150 dflt
      = Except.error e := by
  rw [load_color_palette_some, hsplit]
  rcases hcase with ⟨h1, h2, h3, h4⟩ | ⟨h1, h2, h3, h4, h5, h6⟩
  · cases hfd : find_disabled_effect (pre ++ l :: post) false defaultDisabledEffect with
    | error e => exact ⟨e, by simp⟩
    | ok eff =>
      obtain ⟨e, he⟩ := apply_role_colors_malformed eff.amount pre post l
        ⟨none, eff.color, emptyPalette⟩ h1 h2 h3 h4
      exact ⟨e, by simp [he]⟩
  · obtain ⟨e, he⟩ := find_disabled_effect_malformed pre post l defaultDisabledEffect
      h1 h2 h3 h4 h5 h6
    exact ⟨e, by simp [he]⟩

/-- Witness for C7: a recognized role key whose value is not an integer triple. -/
theorem c7_malformed_value_witness :
    ∃ e, load_color_palette ("t")
        (some (("[Colors:Button]\nBackgroundNormal=abc").toList))
        id id (fun _ => ⟨0, 0, 0⟩) = Except.error e :=
  c7_malformed_value ("t") (("[Colors:Button]\nBackgroundNormal=abc").toList)
    id id (fun _ => ⟨0, 0, 0⟩)
    [(("[Colors:Button]").toList)] [] (("BackgroundNormal=abc").toList)
    (by decide) (Or.inl ⟨by decide, by decide, by decide, by decide⟩)

theorem lookup_mem_snd {α β : Type} [BEq α] (l : List (α × β)) (k : α) (v : β)
    (h : l.lookup k = some v) : v ∈ l.map Prod.snd := by
  induction l with
  | nil => exact absurd h (by simp [List.lookup])
  | cons p t ih =>
    rcases p with ⟨k1, v1⟩
    rw [List.lookup] at h
    cases hk : (k == k1) with
    | true =>
      rw [hk] at h
      injection h with h
      subst h
      simp
    | false =>
      rw [hk] at h
      simp only [List.map, List.mem_cons]
      exact Or.inr (ih h)

/-- The palette roles reachable through `section_role_mapping`. -/
def mappedRoles : List ColorRole :=
  [ColorRole.Button, ColorRole.ButtonText, ColorRole.BrightText, ColorRole.Base,
   ColorRole.AlternateBase, ColorRole.Text, ColorRole.Link, ColorRole.LinkVisited,
   ColorRole.PlaceholderText, ColorRole.Highlight, ColorRole.HighlightedText,
   ColorRole.ToolTipBase, ColorRole.ToolTipText, ColorRole.Window, ColorRole.WindowText]

theorem roleFor_mem (sec : Option (List Char)) (key : List Char) (r : ColorRole)
    (h : roleFor sec key = some r) : r ∈ mappedRoles := by
  match sec with
  | none => exact absurd h (by simp [roleFor])
  | some s =>
    simp only [roleFor] at h
    cases hm : section_role_mapping.lookup s with
    | none => rw [hm] at h; exact Option.noConfusion h
    | some m =>
      rw [hm] at h
      have hmm : m ∈ section_role_mapping.map Prod.snd := lookup_mem_snd _ _ _ hm
      have hrm : r ∈ m.map Prod.snd := lookup_mem_snd _ _ _ h
      simp only [section_role_mapping, List.map, List.mem_cons, List.not_mem_nil,
        or_false] at hmm
      rcases hmm with h5 | h5 | h5 | h5 | h5 <;> subst h5 <;>
        simp only [List.map, List.mem_cons, List.not_mem_nil, or_false] at hrm <;>
        rcases hrm with rfl | rfl | rfl | rfl | rfl | rfl <;> decide

theorem roleFor_ne_fallback (sec : Option (List Char)) (key : List Char) (r : ColorRole)
    (h : roleFor sec key = some r) :
    r ≠ ColorRole.Light ∧ r ≠ ColorRole.Dark ∧ r ≠ ColorRole.Midlight ∧
      r ≠ ColorRole.Mid ∧ r ≠ ColorRole.Shadow := by
  have hm := roleFor_mem sec key r h
  fin_cases hm <;> decide

theorem Palette.setColor_ne_role (p : Palette) (g0 : ColorGroup) (role : ColorRole)
    (c : Color) (g : ColorGroup) (r : ColorRole) (h : r ≠ role) :
    p.setColor g0 role c g r = p g r := by
  simp [Palette.setColor, h]

theorem Palette.setColor_ne_group (p : Palette) (g0 : ColorGroup) (role : ColorRole)
    (c : Color) (g : ColorGroup) (r : ColorRole) (h : g ≠ g0) :
    p.setColor g0 role c g r = p g r := by
  simp [Palette.setColor, h]

theorem Palette.setColor_same (p : Palette) (g0 : ColorGroup) (role : ColorRole) (c : Color) :
    p.setColor g0 role c g0 role = some c := by
  simp [Palette.setColor]

theorem Palette.setColorAllGroups_same (p : Palette) (role : ColorRole) (c : Color)
    (g : ColorGroup) : p.setColorAllGroups role c g role = some c := by
  simp [Palette.setColorAllGroups]

theorem Palette.setColorAllGroups_other (p : Palette) (role : ColorRole) (c : Color)
    (g : ColorGroup) (r : ColorRole) (h : r ≠ role) :
    p.setColorAllGroups role c g r = p g r := by
  simp [Palette.setColorAllGroups, h]

theorem apply_role_colors_preserves_fallback (amount : PyFloat) (ls : List (List Char))
    (st st' : RoleScanState) (h : apply_role_colors amount ls st = Except.ok st')
    (g : ColorGroup) (r : ColorRole)
    (hr : r = ColorRole.Light ∨ r = ColorRole.Dark ∨ r = ColorRole.Midlight ∨
      r = ColorRole.Mid ∨ r = ColorRole.Shadow) :
    st'.palette g r = st.palette g r := by
  induction ls generalizing st with
  | nil => simp only [apply_role_colors] at h; cases h; rfl
  | cons l t ih =>
    simp only [apply_role_colors] at h
    by_cases h1 : (pyStrip l).head? = some '[' ∧ (pyStrip l).getLast? = some ']'
    · rw [if_pos h1] at h
      exact ih ⟨some (((pyStrip l).drop 1).dropLast), st.disabled_color, st.palette⟩ h
    · rw [if_neg h1] at h
      by_cases h2 : (pyStrip l).contains '=' = true
      · rw [if_pos h2] at h
        cases hrf : roleFor st.currentSection (splitKeyValue (pyStrip l)).1 with
        | none => rw [hrf] at h; exact ih _ h
        | some role =>
          rw [hrf] at h
          cases hp : parse_rgb (splitKeyValue (pyStrip l)).2 with
          | none =>
            rw [hp] at h
            exact Except.noConfusion h
          | some rgb =>
            rw [hp] at h
            replace h : apply_role_colors amount t
                ⟨st.currentSection,
                 apply_color_effect ⟨rgb.1, rgb.2.1, rgb.2.2⟩ st.disabled_color amount,
                 ((st.palette.setColor ColorGroup.Normal role
                     ⟨rgb.1, rgb.2.1, rgb.2.2⟩).setColor ColorGroup.Inactive role
                     ⟨rgb.1, rgb.2.1, rgb.2.2⟩).setColor ColorGroup.Disabled role
                   (apply_color_effect ⟨rgb.1, rgb.2.1, rgb.2.2⟩ st.disabled_color amount)⟩
                = Except.ok st' := h
            have hne := roleFor_ne_fallback _ _ _ hrf
            have hrrole : r ≠ role := by
              rcases hr with rfl | rfl | rfl | rfl | rfl
              · exact (hne.1).symm
              · exact (hne.2.1).symm
              · exact (hne.2.2.1).symm
              · exact (hne.2.2.2.1).symm
              · exact (hne.2.2.2.2).symm
            rw [ih _ h]
            simp only [Palette.setColor_ne_role _ _ _ _ _ _ hrrole]
      · rw [if_neg h2] at h
        exact ih _ h

/-- Channel-wise clamp of a raw color to the 8-bit range. -/
def clampColor (c : Color) : Color :=
  ⟨clamp_8bit c.red, clamp_8bit c.green, clamp_8bit c.blue⟩

theorem blend_channel_zero_amount (sc ec : Int) :
    clamp_8bit (pyTrunc (PyFloat.ofInt sc * (1 - (⟨0, 1⟩ : PyFloat))
        + PyFloat.ofInt ec * (⟨0, 1⟩ : PyFloat)))
      = clamp_8bit sc := by
  rw [pyTrunc_blend _ _ _ (by decide)]
  have hv : (⟨0, 1⟩ : PyFloat).val = 0 := by simp [PyFloat.val]
  rw [hv]
  have h : ((sc : ℚ) * (1 - 0) + (ec : ℚ) * 0) = ((sc : ℤ) : ℚ) := by ring
  rw [h, ratTruncTowardZero_intCast]

theorem apply_color_effect_zero_amount (c b : Color) :
    apply_color_effect c b ⟨0, 1⟩ = clampColor c :=
  Color.ext (blend_channel_zero_amount _ _) (blend_channel_zero_amount _ _)
    (blend_channel_zero_amount _ _)

theorem clampColor_of_range (c : Color) (h : channelsInRange c) : clampColor c = c := by
  obtain ⟨h1, h2, h3, h4, h5, h6⟩ := h
  exact Color.ext (clamp_8bit_of_range _ h1 h2) (clamp_8bit_of_range _ h3 h4)
    (clamp_8bit_of_range _ h5 h6)

theorem find_disabled_effect_no_header (ls : List (List Char)) (st : DisabledEffect)
    (h : ∀ l ∈ ls, pyStrip l ≠ disabledHeader) :
    find_disabled_effect ls false st = Except.ok st := by
  induction ls with
  | nil => rfl
  | cons l t ih =>
    have h1 : pyStrip l ≠ disabledHeader := h l (by simp)
    simp only [find_disabled_effect, h1, if_false, Bool.not_false, if_true]
    exact ih (fun d hd => h d (by simp [hd]))

theorem zero_inv_step (p : Palette) (role : ColorRole) (cNew : Color) (base : Color)
    (hinv : ∀ r c, p ColorGroup.Normal r = some c →
      p ColorGroup.Disabled r = some (clampColor c)) :
    ∀ r c, (((p.setColor ColorGroup.Normal role cNew).setColor ColorGroup.Inactive role
        cNew).setColor ColorGroup.Disabled role
        (apply_color_effect cNew base ⟨0, 1⟩)) ColorGroup.Normal r = some c →
      (((p.setColor ColorGroup.Normal role cNew).setColor ColorGroup.Inactive role
        cNew).setColor ColorGroup.Disabled role
        (apply_color_effect cNew base ⟨0, 1⟩)) ColorGroup.Disabled r = some (clampColor c) := by
  intro r c hq
  by_cases hr : r = role
  · subst hr
    rw [Palette.setColor_ne_group _ _ _ _ _ _ (by decide),
      Palette.setColor_ne_group _ _ _ _ _ _ (by decide), Palette.setColor_same] at hq
    injection hq with hq
    subst hq
    rw [Palette.setColor_same, apply_color_effect_zero_amount]
  · rw [Palette.setColor_ne_role _ _ _ _ _ _ hr, Palette.setColor_ne_role _ _ _ _ _ _ hr,
      Palette.setColor_ne_role _ _ _ _ _ _ hr] at hq
    rw [Palette.setColor_ne_role _ _ _ _ _ _ hr, Palette.setColor_ne_role _ _ _ _ _ _ hr,
      Palette.setColor_ne_role _ _ _ _ _ _ hr]
    exact hinv r c hq

theorem apply_role_colors_zero_inv (ls : List (List Char)) (st st' : RoleScanState)
    (h : apply_role_colors ⟨0, 1⟩ ls st = Except.ok st')
    (hinv : ∀ r c, st.palette ColorGroup.Normal r = some c →
      st.palette ColorGroup.Disabled r = some (clampColor c)) :
    ∀ r c, st'.palette ColorGroup.Normal r = some c →
      st'.palette ColorGroup.Disabled r = some (clampColor c) := by
  induction ls generalizing st with
  | nil => simp only [apply_role_colors] at h; cases h; exact hinv
  | cons l t ih =>
    simp only [apply_role_colors] at h
    by_cases h1 : (pyStrip l).head? = some '[' ∧ (pyStrip l).getLast? = some ']'
    · rw [if_pos h1] at h
      exact ih _ h hinv
    · rw [if_neg h1] at h
      by_cases h2 : (pyStrip l).contains '=' = true
      · rw [if_pos h2] at h
        cases hrf : roleFor st.currentSection (splitKeyValue (pyStrip l)).1 with
        | none => rw [hrf] at h; exact ih _ h hinv
        | some role =>
          rw [hrf] at h
          cases hp : parse_rgb (splitKeyValue (pyStrip l)).2 with
          | none =>
            rw [hp] at h
            exact Except.noConfusion h
          | some rgb =>
            rw [hp] at h
            replace h : apply_role_colors ⟨0, 1⟩ t
                ⟨st.currentSection,
                 apply_color_effect ⟨rgb.1, rgb.2.1, rgb.2.2⟩ st.disabled_color ⟨0, 1⟩,
                 ((st.palette.setColor ColorGroup.Normal role
                     ⟨rgb.1, rgb.2.1, rgb.2.2⟩).setColor ColorGroup.Inactive role
                     ⟨rgb.1, rgb.2.1, rgb.2.2⟩).setColor ColorGroup.Disabled role
                   (apply_color_effect ⟨rgb.1, rgb.2.1, rgb.2.2⟩ st.disabled_color ⟨0, 1⟩)⟩
                = Except.ok st' := h
            exact ih _ h
              (zero_inv_step st.palette role ⟨rgb.1, rgb.2.1, rgb.2.2⟩ st.disabled_color hinv)
      · rw [if_neg h2] at h
        exact ih _ h hinv

/-- The main parse (disabled-effect pass followed by the role-color pass) of
`load_color_palette` before the fallback calculations. -/
def mainParse (content : List Char) : Except String RoleScanState :=
  match find_disabled_effect (pySplitChar '\n' content) false defaultDisabledEffect with
  | Except.error e => Except.error e
  | Except.ok eff =>
    apply_role_colors eff.amount (pySplitChar '\n' content) ⟨none, eff.color, emptyPalette⟩

/-- The Normal color a role holds right after the main parse (before fallback). -/
def mainParseNormal (content : List Char) (r : ColorRole) : Option Color :=
  match mainParse content with
  | Except.error _ => none
  | Except.ok st => st.palette ColorGroup.Normal r

/-- Component-wise integer average (floor division by 2, as Python `//`). -/
def avgColor (a b : Color) : Color :=
  ⟨(a.red + b.red) / 2, (a.green + b.green) / 2, (a.blue + b.blue) / 2⟩

theorem fallback_light_isSome (lighter150 : Color → Color) (dflt : ColorRole → Color)
    (p : Palette) (h : (p.color ColorRole.Light).isSome = true) :
    fallback_light lighter150 dflt p = p := by
  simp [fallback_light, h]

theorem fallback_light_unset (lighter150 : Color → Color) (dflt : ColorRole → Color)
    (p : Palette) (h : (p.color ColorRole.Light).isSome = false) :
    fallback_light lighter150 dflt p
      = p.setColorAllGroups ColorRole.Light (lighter150 (getColorOr dflt p ColorRole.Button)) := by
  simp [fallback_light, h]

theorem fallback_light_at_other (lighter150 : Color → Color) (dflt : ColorRole → Color)
    (p : Palette) (g : ColorGroup) (r : ColorRole) (h : r ≠ ColorRole.Light) :
    fallback_light lighter150 dflt p g r = p g r := by
  cases hc : (p.color ColorRole.Light).isSome with
  | true => rw [fallback_light_isSome _ _ _ hc]
  | false =>
    rw [fallback_light_unset _ _ _ hc]
    exact Palette.setColorAllGroups_other _ _ _ _ _ h

theorem fallback_dark_isSome (darker150 : Color → Color) (dflt : ColorRole → Color)
    (p : Palette) (h : (p.color ColorRole.Dark).isSome = true) :
    fallback_dark darker150 dflt p = p := by
  simp [fallback_dark, h]

theorem fallback_dark_unset (darker150 : Color → Color) (dflt : ColorRole → Color)
    (p : Palette) (h : (p.color ColorRole.Dark).isSome = false) :
    fallback_dark darker150 dflt p
      = p.setColorAllGroups ColorRole.Dark (darker150 (getColorOr dflt p ColorRole.Window)) := by
  simp [fallback_dark, h]

theorem fallback_dark_at_other (darker150 : Color → Color) (dflt : ColorRole → Color)
    (p : Palette) (g : ColorGroup) (r : ColorRole) (h : r ≠ ColorRole.Dark) :
    fallback_dark darker150 dflt p g r = p g r := by
  cases hc : (p.color ColorRole.Dark).isSome with
  | true => rw [fallback_dark_isSome _ _ _ hc]
  | false =>
    rw [fallback_dark_unset _ _ _ hc]
    exact Palette.setColorAllGroups_other _ _ _ _ _ h

theorem fallback_midlight_isSome (dflt : ColorRole → Color) (p : Palette)
    (h : (p.color ColorRole.Midlight).isSome = true) :
    fallback_midlight dflt p = p := by
  simp [fallback_midlight, h]

theorem fallback_midlight_unset (dflt : ColorRole → Color) (p : Palette)
    (h : (p.color ColorRole.Midlight).isSome = false) :
    fallback_midlight dflt p
      = p.setColorAllGroups ColorRole.Midlight
          (avgColor (getColorOr dflt p ColorRole.Light) (getColorOr dflt p ColorRole.Button)) := by
  simp [fallback_midlight, avgColor, h]

theorem fallback_midlight_at_other (dflt : ColorRole → Color) (p : Palette)
    (g : ColorGroup) (r : ColorRole) (h : r ≠ ColorRole.Midlight) :
    fallback_midlight dflt p g r = p g r := by
  cases hc : (p.color ColorRole.Midlight).isSome with
  | true => rw [fallback_midlight_isSome _ _ hc]
  | false =>
    rw [fallback_midlight_unset _ _ hc]
    exact Palette.setColorAllGroups_other _ _ _ _ _ h

theorem fallback_mid_isSome (dflt : ColorRole → Color) (p : Palette)
    (h : (p.color ColorRole.Mid).isSome = true) :
    fallback_mid dflt p = p := by
  simp [fallback_mid, h]

theorem fallback_mid_unset (dflt : ColorRole → Color) (p : Palette)
    (h : (p.color ColorRole.Mid).isSome = false) :
    fallback_mid dflt p
      = p.setColorAllGroups ColorRole.Mid
          (avgColor (getColorOr dflt p ColorRole.Dark) (getColorOr dflt p ColorRole.Button)) := by
  simp [fallback_mid, avgColor, h]

theorem fallback_mid_at_other (dflt : ColorRole → Color) (p : Palette)
    (g : ColorGroup) (r : ColorRole) (h : r ≠ ColorRole.Mid) :
    fallback_mid dflt p g r = p g r := by
  cases hc : (p.color ColorRole.Mid).isSome with
  | true => rw [fallback_mid_isSome _ _ hc]
  | false =>
    rw [fallback_mid_unset _ _ hc]
    exact Palette.setColorAllGroups_other _ _ _ _ _ h

theorem fallback_shadow_isSome (p : Palette) (h : (p.color ColorRole.Shadow).isSome = true) :
    fallback_shadow p = p := by
  simp [fallback_shadow, h]

theorem fallback_shadow_unset (p : Palette) (h : (p.color ColorRole.Shadow).isSome = false) :
    fallback_shadow p = p.setColorAllGroups ColorRole.Shadow ⟨0, 0, 0⟩ := by
  simp [fallback_shadow, h]

theorem fallback_shadow_at_other (p : Palette) (g : ColorGroup) (r : ColorRole)
    (h : r ≠ ColorRole.Shadow) : fallback_shadow p g r = p g r := by
  cases hc : (p.color ColorRole.Shadow).isSome with
  | true => rw [fallback_shadow_isSome _ hc]
  | false =>
    rw [fallback_shadow_unset _ hc]
    exact Palette.setColorAllGroups_other _ _ _ _ _ h

theorem fallback_calculations_at_other (lighter150 darker150 : Color → Color)
    (dflt : ColorRole → Color) (p : Palette) (g : ColorGroup) (r : ColorRole)
    (h1 : r ≠ ColorRole.Light) (h2 : r ≠ ColorRole.Dark) (h3 : r ≠ ColorRole.Midlight)
    (h4 : r ≠ ColorRole.Mid) (h5 : r ≠ ColorRole.Shadow) :
    fallback_calculations lighter150 darker150 dflt p g r = p g r := by
  unfold fallback_calculations
  rw [fallback_shadow_at_other _ _ _ h5, fallback_mid_at_other _ _ _ _ h4,
    fallback_midlight_at_other _ _ _ _ h3, fallback_dark_at_other _ _ _ _ _ h2,
    fallback_light_at_other _ _ _ _ _ h1]

theorem load_color_palette_ok (theme : String) (content : List Char)
    (lighter150 darker150 : Color → Color) (dflt : ColorRole → Color)
    (eff : DisabledEffect) (st : RoleScanState)
    (h1 : find_disabled_effect (pySplitChar '\n' content) false defaultDisabledEffect
      = Except.ok eff)
    (h2 : apply_role_colors eff.amount (pySplitChar '\n' content)
      ⟨none, eff.color, emptyPalette⟩ = Except.ok st) :
    load_color_palette theme (some content) lighter150 darker150 dflt
      = Except.ok (fallback_calculations lighter150 darker150 dflt st.palette) := by
  rw [load_color_palette_some, h1]
  show (match apply_role_colors eff.amount (pySplitChar '\n' content)
      ⟨none, eff.color, emptyPalette⟩ with
    | Except.error e => Except.error e
    | Except.ok st =>
      Except.ok (fallback_calculations lighter150 darker150 dflt st.palette)) = _
  rw [h2]

/-- C5 counterexample: claim C5 says Disabled equals Normal for every role set by the
role pass when no disabled section occurs; with the out-of-range channel 300 the code
stores Normal (300,1,2) but Disabled clamp8-truncates to (255,1,2). -/
theorem c5_counterexample :
    loadColorAt (load_color_palette ("t")
        (some (("[Colors:Button]\nBackgroundNormal=300,1,2").toList))
        id id (fun _ => ⟨0, 0, 0⟩)) ColorGroup.Normal ColorRole.Button
      = some (some ⟨300, 1, 2⟩) ∧
    loadColorAt (load_color_palette ("t")
        (some (("[Colors:Button]\nBackgroundNormal=300,1,2").toList))
        id id (fun _ => ⟨0, 0, 0⟩)) ColorGroup.Disabled ColorRole.Button
      = some (some ⟨255, 1, 2⟩) ∧
    (⟨300, 1, 2⟩ : Color) ≠ ⟨255, 1, 2⟩ :=
  ⟨by decide, by decide, by decide⟩

/-- C5 (amended): with no `[ColorEffects:Disabled]` header line in the content, the
default effect spec (gray 128,128,128, contrast amount 0.0) is used, and for every role
the role-color pass set, the final Disabled color is the channel-wise clamp8 of the
Normal color — hence equal to the Normal color whenever its channels lie in 0-255. -/
theorem c5_no_disabled_section (theme : String) (content : List Char)
    (lighter150 darker150 : Color → Color) (dflt : ColorRole → Color) (r : ColorRole)
    (c : Color)
    (hnh : ∀ l ∈ pySplitChar '\n' content, pyStrip l ≠ disabledHeader)
    (hc : mainParseNormal content r = some c) :
    find_disabled_effect (pySplitChar '\n' content) false defaultDisabledEffect
        = Except.ok defaultDisabledEffect ∧
    ∃ pal, load_color_palette theme (some content) lighter150 darker150 dflt
        = Except.ok pal ∧
      pal ColorGroup.Normal r = some c ∧
      pal ColorGroup.Disabled r = some (clampColor c) ∧
      (channelsInRange c → pal ColorGroup.Disabled r = some c) := by
  have h1 := find_disabled_effect_no_header (pySplitChar '\n' content) defaultDisabledEffect hnh
  refine ⟨h1, ?_⟩
  cases hm : mainParse content with
  | error e =>
    exfalso
    unfold mainParseNormal at hc
    rw [hm] at hc
    exact Option.noConfusion hc
  | ok st =>
    unfold mainParseNormal at hc
    rw [hm] at hc
    replace hc : st.palette ColorGroup.Normal r = some c := hc
    unfold mainParse at hm
    rw [h1] at hm
    replace hm : apply_role_colors defaultDisabledEffect.amount (pySplitChar '\n' content)
        ⟨none, defaultDisabledEffect.color, emptyPalette⟩ = Except.ok st := hm
    have hm1 : apply_role_colors ⟨0, 1⟩ (pySplitChar '\n' content)
        ⟨none, ⟨128, 128, 128⟩, emptyPalette⟩ = Except.ok st := hm
    have hL : ∀ g, st.palette g ColorRole.Light = none := fun g =>
      apply_role_colors_preserves_fallback _ _ _ _ hm g _ (Or.inl rfl)
    have hD : ∀ g, st.palette g ColorRole.Dark = none := fun g =>
      apply_role_colors_preserves_fallback _ _ _ _ hm g _ (Or.inr (Or.inl rfl))
    have hMl : ∀ g, st.palette g ColorRole.Midlight = none := fun g =>
      apply_role_colors_preserves_fallback _ _ _ _ hm g _ (Or.inr (Or.inr (Or.inl rfl)))
    have hMi : ∀ g, st.palette g ColorRole.Mid = none := fun g =>
      apply_role_colors_preserves_fallback _ _ _ _ hm g _ (Or.inr (Or.inr (Or.inr (Or.inl rfl))))
    have hS : ∀ g, st.palette g ColorRole.Shadow = none := fun g =>
      apply_role_colors_preserves_fallback _ _ _ _ hm g _
        (Or.inr (Or.inr (Or.inr (Or.inr rfl))))
    have hr1 : r ≠ ColorRole.Light := by
      intro hrr; rw [hrr, hL ColorGroup.Normal] at hc; exact Option.noConfusion hc
    have hr2 : r ≠ ColorRole.Dark := by
      intro hrr; rw [hrr, hD ColorGroup.Normal] at hc; exact Option.noConfusion hc
    have hr3 : r ≠ ColorRole.Midlight := by
      intro hrr; rw [hrr, hMl ColorGroup.Normal] at hc; exact Option.noConfusion hc
    have hr4 : r ≠ ColorRole.Mid := by
      intro hrr; rw [hrr, hMi ColorGroup.Normal] at hc; exact Option.noConfusion hc
    have hr5 : r ≠ ColorRole.Shadow := by
      intro hrr; rw [hrr, hS ColorGroup.Normal] at hc; exact Option.noConfusion hc
    have hdis : st.palette ColorGroup.Disabled r = some (clampColor c) :=
      apply_role_colors_zero_inv _ _ _ hm1
        (fun r0 c0 hq => absurd hq (by simp [emptyPalette])) r c hc
    refine ⟨fallback_calculations lighter150 darker150 dflt st.palette,
      load_color_palette_ok theme content _ _ _ defaultDisabledEffect st h1 hm, ?_, ?_, ?_⟩
    · rw [fallback_calculations_at_other _ _ _ _ _ _ hr1 hr2 hr3 hr4 hr5]
      exact hc
    · rw [fallback_calculations_at_other _ _ _ _ _ _ hr1 hr2 hr3 hr4 hr5]
      exact hdis
    · intro hcr
      rw [fallback_calculations_at_other _ _ _ _ _ _ hr1 hr2 hr3 hr4 hr5, hdis,
        clampColor_of_range c hcr]

/-- Witness for C5 (amended) at a concrete theme with no disabled section. -/
theorem c5_no_disabled_section_witness :
    find_disabled_effect (pySplitChar '\n'
        (("[Colors:Button]\nBackgroundNormal=10,20,30").toList)) false defaultDisabledEffect
      = Except.ok defaultDisabledEffect ∧
    ∃ pal, load_color_palette ("t")
        (some (("[Colors:Button]\nBackgroundNormal=10,20,30").toList))
        id id (fun _ => ⟨0, 0, 0⟩) = Except.ok pal ∧
      pal ColorGroup.Normal ColorRole.Button = some ⟨10, 20, 30⟩ ∧
      pal ColorGroup.Disabled ColorRole.Button = some (clampColor ⟨10, 20, 30⟩) ∧
      (channelsInRange ⟨10, 20, 30⟩ →
        pal ColorGroup.Disabled ColorRole.Button = some ⟨10, 20, 30⟩) :=
  c5_no_disabled_section ("t") (("[Colors:Button]\nBackgroundNormal=10,20,30").toList)
    id id (fun _ => ⟨0, 0, 0⟩) ColorRole.Button ⟨10, 20, 30⟩ (by decide) (by decide)

/-- Whether the main parse (both scan passes) succeeds. -/
def mainParseOk (content : List Char) : Bool :=
  match mainParse content with
  | Except.error _ => false
  | Except.ok _ => true

/-- The color a role resolves to after the main parse: its parsed Normal color, or the
toolkit default for that role when unset. -/
def mainColorOr (dflt : ColorRole → Color) (content : List Char) (r : ColorRole) : Color :=
  (mainParseNormal content r).getD (dflt r)

theorem getColorOr_setAll_other (dflt : ColorRole → Color) (p : Palette) (role : ColorRole)
    (c : Color) (r : ColorRole) (h : r ≠ role) :
    getColorOr dflt (p.setColorAllGroups role c) r = getColorOr dflt p r := by
  unfold getColorOr
  rw [show (p.setColorAllGroups role c).color r = p.color r from
    Palette.setColorAllGroups_other _ _ _ _ _ h]

theorem getColorOr_setAll_same (dflt : ColorRole → Color) (p : Palette) (role : ColorRole)
    (c : Color) :
    getColorOr dflt (p.setColorAllGroups role c) role = c := by
  unfold getColorOr
  rw [show (p.setColorAllGroups role c).color role = some c from
    Palette.setColorAllGroups_same _ _ _ _]
  rfl

theorem fallback_calculations_values (lighter150 darker150 : Color → Color)
    (dflt : ColorRole → Color) (p : Palette)
    (hLn : (p.color ColorRole.Light).isSome = false)
    (hDn : (p.color ColorRole.Dark).isSome = false)
    (hMln : (p.color ColorRole.Midlight).isSome = false)
    (hMin : (p.color ColorRole.Mid).isSome = false)
    (hSn : (p.color ColorRole.Shadow).isSome = false) :
    fallback_calculations lighter150 darker150 dflt p ColorGroup.Normal ColorRole.Light
        = some (lighter150 (getColorOr dflt p ColorRole.Button)) ∧
    fallback_calculations lighter150 darker150 dflt p ColorGroup.Normal ColorRole.Dark
        = some (darker150 (getColorOr dflt p ColorRole.Window)) ∧
    fallback_calculations lighter150 darker150 dflt p ColorGroup.Normal ColorRole.Midlight
        = some (avgColor (lighter150 (getColorOr dflt p ColorRole.Button))
            (getColorOr dflt p ColorRole.Button)) ∧
    fallback_calculations lighter150 darker150 dflt p ColorGroup.Normal ColorRole.Mid
        = some (avgColor (darker150 (getColorOr dflt p ColorRole.Window))
            (getColorOr dflt p ColorRole.Button)) ∧
    fallback_calculations lighter150 darker150 dflt p ColorGroup.Normal ColorRole.Shadow
        = some ⟨0, 0, 0⟩ := by
  have e1 : fallback_light lighter150 dflt p
      = p.setColorAllGroups ColorRole.Light (lighter150 (getColorOr dflt p ColorRole.Button)) :=
    fallback_light_unset _ _ _ hLn
  have c2 : ((p.setColorAllGroups ColorRole.Light
      (lighter150 (getColorOr dflt p ColorRole.Button))).color ColorRole.Dark).isSome
      = false := by
    rw [show (p.setColorAllGroups ColorRole.Light
        (lighter150 (getColorOr dflt p ColorRole.Button))).color ColorRole.Dark
        = p.color ColorRole.Dark from
      Palette.setColorAllGroups_other _ _ _ _ _ (by decide)]
    exact hDn
  have e2 : fallback_dark darker150 dflt (p.setColorAllGroups ColorRole.Light
      (lighter150 (getColorOr dflt p ColorRole.Button)))
      = (p.setColorAllGroups ColorRole.Light
          (lighter150 (getColorOr dflt p ColorRole.Button))).setColorAllGroups ColorRole.Dark
          (darker150 (getColorOr dflt p ColorRole.Window)) := by
    rw [fallback_dark_unset _ _ _ c2,
      getColorOr_setAll_other dflt p ColorRole.Light _ ColorRole.Window (by decide)]
  have c3 : (((p.setColorAllGroups ColorRole.Light
      (lighter150 (getColorOr dflt p ColorRole.Button))).setColorAllGroups ColorRole.Dark
      (darker150 (getColorOr dflt p ColorRole.Window))).color ColorRole.Midlight).isSome
      = false := by
    rw [show ((p.setColorAllGroups ColorRole.Light
        (lighter150 (getColorOr dflt p ColorRole.Button))).setColorAllGroups ColorRole.Dark
        (darker150 (getColorOr dflt p ColorRole.Window))).color ColorRole.Midlight
        = (p.setColorAllGroups ColorRole.Light
            (lighter150 (getColorOr dflt p ColorRole.Button))).color ColorRole.Midlight from
      Palette.setColorAllGroups_other _ _ _ _ _ (by decide)]
    rw [show (p.setColorAllGroups ColorRole.Light
        (lighter150 (getColorOr dflt p ColorRole.Button))).color ColorRole.Midlight
        = p.color ColorRole.Midlight from
      Palette.setColorAllGroups_other _ _ _ _ _ (by decide)]
    exact hMln
  have e3 : fallback_midlight dflt ((p.setColorAllGroups ColorRole.Light
      (lighter150 (getColorOr dflt p ColorRole.Button))).setColorAllGroups ColorRole.Dark
      (darker150 (getColorOr dflt p ColorRole.Window)))
      = ((p.setColorAllGroups ColorRole.Light
          (lighter150 (getColorOr dflt p ColorRole.Button))).setColorAllGroups ColorRole.Dark
          (darker150 (getColorOr dflt p ColorRole.Window))).setColorAllGroups
          ColorRole.Midlight
          (avgColor (lighter150 (getColorOr dflt p ColorRole.Button))
            (getColorOr dflt p ColorRole.Button)) := by
    rw [fallback_midlight_unset _ _ c3,
      getColorOr_setAll_other dflt _ ColorRole.Dark _ ColorRole.Light (by decide),
      getColorOr_setAll_same dflt p ColorRole.Light,
      getColorOr_setAll_other dflt _ ColorRole.Dark _ ColorRole.Button (by decide),
      getColorOr_setAll_other dflt p ColorRole.Light _ ColorRole.Button (by decide)]
  have c4 : ((((p.setColorAllGroups ColorRole.Light
      (lighter150 (getColorOr dflt p ColorRole.Button))).setColorAllGroups ColorRole.Dark
      (darker150 (getColorOr dflt p ColorRole.Window))).setColorAllGroups ColorRole.Midlight
      (avgColor (lighter150 (getColorOr dflt p ColorRole.Button))
        (getColorOr dflt p ColorRole.Button))).color ColorRole.Mid).isSome = false := by
    rw [show (((p.setColorAllGroups ColorRole.Light
        (lighter150 (getColorOr dflt p ColorRole.Button))).setColorAllGroups ColorRole.Dark
        (darker150 (getColorOr dflt p ColorRole.Window))).setColorAllGroups ColorRole.Midlight
        (avgColor (lighter150 (getColorOr dflt p ColorRole.Button))
          (getColorOr dflt p ColorRole.Button))).color ColorRole.Mid
        = ((p.setColorAllGroups ColorRole.Light
            (lighter150 (getColorOr dflt p ColorRole.Button))).setColorAllGroups ColorRole.Dark
            (darker150 (getColorOr dflt p ColorRole.Window))).color ColorRole.Mid from
      Palette.setColorAllGroups_other _ _ _ _ _ (by decide)]
    rw [show ((p.setColorAllGroups ColorRole.Light
        (lighter150 (getColorOr dflt p ColorRole.Button))).setColorAllGroups ColorRole.Dark
        (darker150 (getColorOr dflt p ColorRole.Window))).color ColorRole.Mid
        = (p.setColorAllGroups ColorRole.Light
            (lighter150 (getColorOr dflt p ColorRole.Button))).color ColorRole.Mid from
      Palette.setColorAllGroups_other _ _ _ _ _ (by decide)]
    rw [show (p.setColorAllGroups ColorRole.Light
        (lighter150 (getColorOr dflt p ColorRole.Button))).color ColorRole.Mid
        = p.color ColorRole.Mid from
      Palette.setColorAllGroups_other _ _ _ _ _ (by decide)]
    exact hMin
  have e4 : fallback_mid dflt (((p.setColorAllGroups ColorRole.Light
      (lighter150 (getColorOr dflt p ColorRole.Button))).setColorAllGroups ColorRole.Dark
      (darker150 (getColorOr dflt p ColorRole.Window))).setColorAllGroups ColorRole.Midlight
      (avgColor (lighter150 (getColorOr dflt p ColorRole.Button))
        (getColorOr dflt p ColorRole.Button)))
      = (((p.setColorAllGroups ColorRole.Light
          (lighter150 (getColorOr dflt p ColorRole.Button))).setColorAllGroups ColorRole.Dark
          (darker150 (getColorOr dflt p ColorRole.Window))).setColorAllGroups
          ColorRole.Midlight
          (avgColor (lighter150 (getColorOr dflt p ColorRole.Button))
            (getColorOr dflt p ColorRole.Button))).setColorAllGroups ColorRole.Mid
          (avgColor (darker150 (getColorOr dflt p ColorRole.Window))
            (getColorOr dflt p ColorRole.Button)) := by
    rw [fallback_mid_unset _ _ c4,
      getColorOr_setAll_other dflt _ ColorRole.Midlight _ ColorRole.Dark (by decide),
      getColorOr_setAll_same dflt _ ColorRole.Dark,
      getColorOr_setAll_other dflt _ ColorRole.Midlight _ ColorRole.Button (by decide),
      getColorOr_setAll_other dflt _ ColorRole.Dark _ ColorRole.Button (by decide),
      getColorOr_setAll_other dflt p ColorRole.Light _ ColorRole.Button (by decide)]
  have c5 : ((fallback_mid dflt (fallback_midlight dflt (fallback_dark darker150 dflt
      (fallback_light lighter150 dflt p)))).color ColorRole.Shadow).isSome = false := by
    rw [e1, e2, e3, e4]
    rw [show (((((p.setColorAllGroups ColorRole.Light
        (lighter150 (getColorOr dflt p ColorRole.Button))).setColorAllGroups ColorRole.Dark
        (darker150 (getColorOr dflt p ColorRole.Window))).setColorAllGroups ColorRole.Midlight
        (avgColor (lighter150 (getColorOr dflt p ColorRole.Button))
          (getColorOr dflt p ColorRole.Button))).setColorAllGroups ColorRole.Mid
        (avgColor (darker150 (getColorOr dflt p ColorRole.Window))
          (getColorOr dflt p ColorRole.Button)))).color ColorRole.Shadow
        = p.color ColorRole.Shadow from by
      rw [show ∀ q : Palette, q.color ColorRole.Shadow
          = q ColorGroup.Normal ColorRole.Shadow from fun q => rfl]
      rw [Palette.setColorAllGroups_other _ _ _ _ _ (by decide),
        Palette.setColorAllGroups_other _ _ _ _ _ (by decide),
        Palette.setColorAllGroups_other _ _ _ _ _ (by decide),
        Palette.setColorAllGroups_other _ _ _ _ _ (by decide)]
      rfl]
    exact hSn
  refine ⟨?_, ?_, ?_, ?_, ?_⟩
  · show fallback_shadow (fallback_mid dflt (fallback_midlight dflt (fallback_dark darker150
      dflt (fallback_light lighter150 dflt p)))) ColorGroup.Normal ColorRole.Light = _
    rw [fallback_shadow_at_other _ _ _ (by decide), e1, e2, e3, e4,
      Palette.setColorAllGroups_other _ _ _ _ _ (by decide),
      Palette.setColorAllGroups_other _ _ _ _ _ (by decide),
      Palette.setColorAllGroups_other _ _ _ _ _ (by decide),
      Palette.setColorAllGroups_same]
  · show fallback_shadow (fallback_mid dflt (fallback_midlight dflt (fallback_dark darker150
      dflt (fallback_light lighter150 dflt p)))) ColorGroup.Normal ColorRole.Dark = _
    rw [fallback_shadow_at_other _ _ _ (by decide), e1, e2, e3, e4,
      Palette.setColorAllGroups_other _ _ _ _ _ (by decide),
      Palette.setColorAllGroups_other _ _ _ _ _ (by decide),
      Palette.setColorAllGroups_same]
  · show fallback_shadow (fallback_mid dflt (fallback_midlight dflt (fallback_dark darker150
      dflt (fallback_light lighter150 dflt p)))) ColorGroup.Normal ColorRole.Midlight = _
    rw [fallback_shadow_at_other _ _ _ (by decide), e1, e2, e3, e4,
      Palette.setColorAllGroups_other _ _ _ _ _ (by decide),
      Palette.setColorAllGroups_same]
  · show fallback_shadow (fallback_mid dflt (fallback_midlight dflt (fallback_dark darker150
      dflt (fallback_light lighter150 dflt p)))) ColorGroup.Normal ColorRole.Mid = _
    rw [fallback_shadow_at_other _ _ _ (by decide), e1, e2, e3, e4,
      Palette.setColorAllGroups_same]
  · show fallback_shadow (fallback_mid dflt (fallback_midlight dflt (fallback_dark darker150
      dflt (fallback_light lighter150 dflt p)))) ColorGroup.Normal ColorRole.Shadow = _
    rw [fallback_shadow_unset _ c5, Palette.setColorAllGroups_same]

/-- C4: the fallback pass sets each of Light, Dark, Midlight, Mid, Shadow only if that
role has no value — it never overrides a value that is already set — and after any
successful main parse (these five roles are then always absent) it populates them all:
Light from the Button color lightened, Dark from the Window color darkened, Midlight
and Mid as component-wise integer averages of (Light, Button) and (Dark, Button),
and Shadow as (0,0,0). -/
theorem c4_fallback_derivation (lighter150 darker150 : Color → Color)
    (dflt : ColorRole → Color) :
    (∀ (p : Palette) (g : ColorGroup),
      ((p.color ColorRole.Light).isSome = true →
        fallback_calculations lighter150 darker150 dflt p g ColorRole.Light
          = p g ColorRole.Light) ∧
      ((p.color ColorRole.Dark).isSome = true →
        fallback_calculations lighter150 darker150 dflt p g ColorRole.Dark
          = p g ColorRole.Dark) ∧
      ((p.color ColorRole.Midlight).isSome = true →
        fallback_calculations lighter150 darker150 dflt p g ColorRole.Midlight
          = p g ColorRole.Midlight) ∧
      ((p.color ColorRole.Mid).isSome = true →
        fallback_calculations lighter150 darker150 dflt p g ColorRole.Mid
          = p g ColorRole.Mid) ∧
      ((p.color ColorRole.Shadow).isSome = true →
        fallback_calculations lighter150 darker150 dflt p g ColorRole.Shadow
          = p g ColorRole.Shadow)) ∧
    (∀ (theme : String) (content : List Char),
      mainParseOk content = true →
      ∃ pal, load_color_palette theme (some content) lighter150 darker150 dflt
          = Except.ok pal ∧
        pal ColorGroup.Normal ColorRole.Light
          = some (lighter150 (mainColorOr dflt content ColorRole.Button)) ∧
        pal ColorGroup.Normal ColorRole.Dark
          = some (darker150 (mainColorOr dflt content ColorRole.Window)) ∧
        pal ColorGroup.Normal ColorRole.Midlight
          = some (avgColor (lighter150 (mainColorOr dflt content ColorRole.Button))
              (mainColorOr dflt content ColorRole.Button)) ∧
        pal ColorGroup.Normal ColorRole.Mid
          = some (avgColor (darker150 (mainColorOr dflt content ColorRole.Window))
              (mainColorOr dflt content ColorRole.Button)) ∧
        pal ColorGroup.Normal ColorRole.Shadow = some ⟨0, 0, 0⟩) := by
  constructor
  · intro p g
    refine ⟨?_, ?_, ?_, ?_, ?_⟩
    · intro hset
      unfold fallback_calculations
      rw [fallback_light_isSome _ _ _ hset,
        fallback_shadow_at_other _ g ColorRole.Light (by decide),
        fallback_mid_at_other _ _ g ColorRole.Light (by decide),
        fallback_midlight_at_other _ _ g ColorRole.Light (by decide),
        fallback_dark_at_other _ _ _ g ColorRole.Light (by decide)]
    · intro hset
      unfold fallback_calculations
      have hq : (fallback_light lighter150 dflt p).color ColorRole.Dark
          = p.color ColorRole.Dark :=
        fallback_light_at_other _ _ _ ColorGroup.Normal ColorRole.Dark (by decide)
      rw [fallback_dark_isSome _ _ _ (by rw [hq]; exact hset),
        fallback_shadow_at_other _ g ColorRole.Dark (by decide),
        fallback_mid_at_other _ _ g ColorRole.Dark (by decide),
        fallback_midlight_at_other _ _ g ColorRole.Dark (by decide),
        fallback_light_at_other _ _ _ g ColorRole.Dark (by decide)]
    · intro hset
      unfold fallback_calculations
      have hq : (fallback_dark darker150 dflt (fallback_light lighter150 dflt p)).color
          ColorRole.Midlight = p.color ColorRole.Midlight := by
        rw [show (fallback_dark darker150 dflt (fallback_light lighter150 dflt p)).color
            ColorRole.Midlight
            = (fallback_light lighter150 dflt p).color ColorRole.Midlight from
          fallback_dark_at_other _ _ _ ColorGroup.Normal ColorRole.Midlight (by decide)]
        exact fallback_light_at_other _ _ _ ColorGroup.Normal ColorRole.Midlight (by decide)
      rw [fallback_midlight_isSome _ _ (by rw [hq]; exact hset),
        fallback_shadow_at_other _ g ColorRole.Midlight (by decide),
        fallback_mid_at_other _ _ g ColorRole.Midlight (by decide),
        fallback_dark_at_other _ _ _ g ColorRole.Midlight (by decide),
        fallback_light_at_other _ _ _ g ColorRole.Midlight (by decide)]
    · intro hset
      unfold fallback_calculations
      have hq : (fallback_midlight dflt (fallback_dark darker150 dflt
          (fallback_light lighter150 dflt p))).color ColorRole.Mid
          = p.color ColorRole.Mid := by
        rw [show (fallback_midlight dflt (fallback_dark darker150 dflt
            (fallback_light lighter150 dflt p))).color ColorRole.Mid
            = (fallback_dark darker150 dflt (fallback_light lighter150 dflt p)).color
                ColorRole.Mid from
          fallback_midlight_at_other _ _ ColorGroup.Normal ColorRole.Mid (by decide)]
        rw [show (fallback_dark darker150 dflt (fallback_light lighter150 dflt p)).color
            ColorRole.Mid = (fallback_light lighter150 dflt p).color ColorRole.Mid from
          fallback_dark_at_other _ _ _ ColorGroup.Normal ColorRole.Mid (by decide)]
        exact fallback_light_at_other _ _ _ ColorGroup.Normal ColorRole.Mid (by decide)
      rw [fallback_mid_isSome _ _ (by rw [hq]; exact hset),
        fallback_shadow_at_other _ g ColorRole.Mid (by decide),
        fallback_midlight_at_other _ _ g ColorRole.Mid (by decide),
        fallback_dark_at_other _ _ _ g ColorRole.Mid (by decide),
        fallback_light_at_other _ _ _ g ColorRole.Mid (by decide)]
    · intro hset
      unfold fallback_calculations
      have hq : (fallback_mid dflt (fallback_midlight dflt (fallback_dark darker150 dflt
          (fallback_light lighter150 dflt p)))).color ColorRole.Shadow
          = p.color ColorRole.Shadow := by
        rw [show (fallback_mid dflt (fallback_midlight dflt (fallback_dark darker150 dflt
            (fallback_light lighter150 dflt p)))).color ColorRole.Shadow
            = (fallback_midlight dflt (fallback_dark darker150 dflt
                (fallback_light lighter150 dflt p))).color ColorRole.Shadow from
          fallback_mid_at_other _ _ ColorGroup.Normal ColorRole.Shadow (by decide)]
        rw [show (fallback_midlight dflt (fallback_dark darker150 dflt
            (fallback_light lighter150 dflt p))).color ColorRole.Shadow
            = (fallback_dark darker150 dflt (fallback_light lighter150 dflt p)).color
                ColorRole.Shadow from
          fallback_midlight_at_other _ _ ColorGroup.Normal ColorRole.Shadow (by decide)]
        rw [show (fallback_dark darker150 dflt (fallback_light lighter150 dflt p)).color
            ColorRole.Shadow = (fallback_light lighter150 dflt p).color ColorRole.Shadow from
          fallback_dark_at_other _ _ _ ColorGroup.Normal ColorRole.Shadow (by decide)]
        exact fallback_light_at_other _ _ _ ColorGroup.Normal ColorRole.Shadow (by decide)
      rw [fallback_shadow_isSome _ (by rw [hq]; exact hset),
        fallback_mid_at_other _ _ g ColorRole.Shadow (by decide),
        fallback_midlight_at_other _ _ g ColorRole.Shadow (by decide),
        fallback_dark_at_other _ _ _ g ColorRole.Shadow (by decide),
        fallback_light_at_other _ _ _ g ColorRole.Shadow (by decide)]
  · intro theme content hok
    cases hm : mainParse content with
    | error e =>
      exfalso
      unfold mainParseOk at hok
      rw [hm] at hok
      exact Bool.noConfusion hok
    | ok st =>
      have hm2 := hm
      unfold mainParse at hm2
      cases hfd : find_disabled_effect (pySplitChar '\n' content) false
          defaultDisabledEffect with
      | error e =>
        rw [hfd] at hm2
        exact Except.noConfusion hm2
      | ok eff =>
        rw [hfd] at hm2
        replace hm2 : apply_role_colors eff.amount (pySplitChar '\n' content)
            ⟨none, eff.color, emptyPalette⟩ = Except.ok st := hm2
        have hmainN : ∀ r, mainParseNormal content r = st.palette ColorGroup.Normal r := by
          intro r
          unfold mainParseNormal
          rw [hm]
        have hL : ∀ g, st.palette g ColorRole.Light = none := fun g =>
          apply_role_colors_preserves_fallback _ _ _ _ hm2 g _ (Or.inl rfl)
        have hD : ∀ g, st.palette g ColorRole.Dark = none := fun g =>
          apply_role_colors_preserves_fallback _ _ _ _ hm2 g _ (Or.inr (Or.inl rfl))
        have hMl : ∀ g, st.palette g ColorRole.Midlight = none := fun g =>
          apply_role_colors_preserves_fallback _ _ _ _ hm2 g _ (Or.inr (Or.inr (Or.inl rfl)))
        have hMi : ∀ g, st.palette g ColorRole.Mid = none := fun g =>
          apply_role_colors_preserves_fallback _ _ _ _ hm2 g _
            (Or.inr (Or.inr (Or.inr (Or.inl rfl))))
        have hS : ∀ g, st.palette g ColorRole.Shadow = none := fun g =>
          apply_role_colors_preserves_fallback _ _ _ _ hm2 g _
            (Or.inr (Or.inr (Or.inr (Or.inr rfl))))
        have hLn : (st.palette.color ColorRole.Light).isSome = false := by
          show (st.palette ColorGroup.Normal ColorRole.Light).isSome = false
          rw [hL]
          rfl
        have hDn : (st.palette.color ColorRole.Dark).isSome = false := by
          show (st.palette ColorGroup.Normal ColorRole.Dark).isSome = false
          rw [hD]
          rfl
        have hMln : (st.palette.color ColorRole.Midlight).isSome = false := by
          show (st.palette ColorGroup.Normal ColorRole.Midlight).isSome = false
          rw [hMl]
          rfl
        have hMin : (st.palette.color ColorRole.Mid).isSome = false := by
          show (st.palette ColorGroup.Normal ColorRole.Mid).isSome = false
          rw [hMi]
          rfl
        have hSn : (st.palette.color ColorRole.Shadow).isSome = false := by
          show (st.palette ColorGroup.Normal ColorRole.Shadow).isSome = false
          rw [hS]
          rfl
        have hB : mainColorOr dflt content ColorRole.Button
            = getColorOr dflt st.palette ColorRole.Button := by
          unfold mainColorOr
          rw [hmainN]
          rfl
        have hW : mainColorOr dflt content ColorRole.Window
            = getColorOr dflt st.palette ColorRole.Window := by
          unfold mainColorOr
          rw [hmainN]
          rfl
        obtain ⟨v1, v2, v3, v4, v5⟩ := fallback_calculations_values lighter150 darker150 dflt
          st.palette hLn hDn hMln hMin hSn
        refine ⟨fallback_calculations lighter150 darker150 dflt st.palette,
          load_color_palette_ok theme content _ _ _ eff st hfd hm2, ?_, ?_, ?_, ?_, v5⟩
        · rw [v1, hB]
        · rw [v2, hW]
        · rw [v3, hB]
        · rw [v4, hB, hW]

/-- Witness for C4 at a concrete theme setting only Button and Window. -/
theorem c4_fallback_derivation_witness :
    ∃ pal, load_color_palette ("t")
        (some (("[Colors:Button]\nBackgroundNormal=10,20,30\n[Colors:Window]\nBackgroundNormal=40,50,60").toList))
        id id (fun _ => ⟨0, 0, 0⟩) = Except.ok pal ∧
      pal ColorGroup.Normal ColorRole.Light
        = some (id (mainColorOr (fun _ => ⟨0, 0, 0⟩)
            (("[Colors:Button]\nBackgroundNormal=10,20,30\n[Colors:Window]\nBackgroundNormal=40,50,60").toList)
            ColorRole.Button)) ∧
      pal ColorGroup.Normal ColorRole.Dark
        = some (id (mainColorOr (fun _ => ⟨0, 0, 0⟩)
            (("[Colors:Button]\nBackgroundNormal=10,20,30\n[Colors:Window]\nBackgroundNormal=40,50,60").toList)
            ColorRole.Window)) ∧
      pal ColorGroup.Normal ColorRole.Midlight
        = some (avgColor (id (mainColorOr (fun _ => ⟨0, 0, 0⟩)
            (("[Colors:Button]\nBackgroundNormal=10,20,30\n[Colors:Window]\nBackgroundNormal=40,50,60").toList)
            ColorRole.Button))
            (mainColorOr (fun _ => ⟨0, 0, 0⟩)
              (("[Colors:Button]\nBackgroundNormal=10,20,30\n[Colors:Window]\nBackgroundNormal=40,50,60").toList)
              ColorRole.Button)) ∧
      pal ColorGroup.Normal ColorRole.Mid
        = some (avgColor (id (mainColorOr (fun _ => ⟨0, 0, 0⟩)
            (("[Colors:Button]\nBackgroundNormal=10,20,30\n[Colors:Window]\nBackgroundNormal=40,50,60").toList)
            ColorRole.Window))
            (mainColorOr (fun _ => ⟨0, 0, 0⟩)
              (("[Colors:Button]\nBackgroundNormal=10,20,30\n[Colors:Window]\nBackgroundNormal=40,50,60").toList)
              ColorRole.Button)) ∧
      pal ColorGroup.Normal ColorRole.Shadow = some ⟨0, 0, 0⟩ :=
  (c4_fallback_derivation id id (fun _ => ⟨0, 0, 0⟩)).2 ("t")
    (("[Colors:Button]\nBackgroundNormal=10,20,30\n[Colors:Window]\nBackgroundNormal=40,50,60").toList)
    (by decide)

example : pyInt (" 42 ".toList) = some 42 := by decide

example : pyInt ("-7".toList) = some (-7) := by decide

example : pyInt ("1_0".toList) = some 10 := by decide

example : pyInt ("_1".toList) = none := by decide

example : pyInt ("1a".toList) = none := by decide

example : pyFloat ("0.5".toList) = some ⟨5, 10⟩ := by decide

example : pyFloat ("-1.5e1".toList) = some ⟨-150, 10⟩ := by decide

example : parse_rgb ("1, 2,3".toList) = some (1, 2, 3) := by decide

example : parse_rgb ("1,2".toList) = none := by decide

example : parse_rgb ("1,2,3,4".toList) = none := by decide

example : splitKeyValue ("Color = 1,2,3".toList) = ("Color".toList, "1,2,3".toList) := by decide

example : apply_color_effect ⟨200, 200, 200⟩ ⟨100, 100, 100⟩ ⟨5, 10⟩ = ⟨150, 150, 150⟩ := by
  decide

example : apply_color_effect ⟨300, 1, 2⟩ ⟨128, 128, 128⟩ ⟨0, 1⟩ = ⟨255, 1, 2⟩ := by decide

example :
    loadColorAt (load_color_palette ("t")
      (some (("[ColorEffects:Disabled]\nColor=100,100,100\nContrastAmount=0.5\n[Colors:Button]\nBackgroundNormal=200,200,200").toList))
      id id (fun _ => ⟨0, 0, 0⟩)) ColorGroup.Normal ColorRole.Button = some (some ⟨200, 200, 200⟩) := by
  decide

example :
    loadColorAt (load_color_palette ("t")
      (some (("[ColorEffects:Disabled]\nColor=100,100,100\nContrastAmount=0.5\n[Colors:Button]\nBackgroundNormal=200,200,200").toList))
      id id (fun _ => ⟨0, 0, 0⟩)) ColorGroup.Disabled ColorRole.Button = some (some ⟨150, 150, 150⟩) := by
  decide

example :
    load_color_palette ("missing") none id id (fun _ => ⟨0, 0, 0⟩)
      = Except.error ("Could not open theme file: missing") := rfl
